import Mathlib

/-!
# Verification of the pipeline engine and validation loops

A shallow embedding, in Lean 4, of the parts of the repository that the
claims concern:

* `agents/bigquery/validators/sql_validator.py` — the SQL validation loop
  (`SQLValidationAgent`);
* `agents/bigquery/validators/graph_validator.py` — the chart-data validation
  loop (`GraphDataValidationAgent`);
* `agents/pipeline/pipeline_agent.py` — the dependency scheduler
  (`_execute_parallel_pipeline`), the retry wrapper
  (`_execute_step_with_retry`) and the final-result aggregation
  (`_build_final_result`);
* `pipeline/pipeline_service.py` — the sequential executor
  (`PipelineService.execute`).

Modelling conventions, used consistently below:

* Python strings are `String`; `.upper()` / `.lower()` / `.strip()` are
  modelled on ASCII (the repository's queries, rule strings and error
  messages are ASCII).
* Python numbers (`int`/`float`) are modelled as `ℚ`.  The source uses
  numeric literals only as constants and in exact comparisons, sums and
  divisions, so exact rationals are faithful; non-finite floats never arise
  on the modelled paths.
* External collaborators — the LLM oracle and the warehouse — are modelled
  as explicit function parameters (`Except` captures "the call raised").
  The prompt strings built by the source are functions of the arguments we
  pass to these parameters, so abstracting the prompt away loses nothing.
* Wall-clock fields (`execution_time`, timestamps) and logging are outside
  the embedding; every other field of the source dataclasses is kept.
* `async`/`await` sequencing is strictly sequential in the source loops, so
  the embedding is a pure function of its inputs.
-/

namespace AgentSample

/-! ## Python string primitives (ASCII fragment) -/

/-- Python `str.upper()` (ASCII). -/
def upperStr (s : String) : String := ⟨s.data.map Char.toUpper⟩

/-- Python `str.lower()` (ASCII). -/
def lowerStr (s : String) : String := ⟨s.data.map Char.toLower⟩

/-- Python `str.strip()` (ASCII whitespace). -/
def pyStrip (s : String) : String :=
  ⟨((s.data.dropWhile Char.isWhitespace).reverse.dropWhile Char.isWhitespace).reverse⟩

/-- Substring test on character lists, used to model Python's `in`. -/
def containsSub (needle : List Char) : List Char → Bool
  | [] => needle.isEmpty
  | c :: t => needle.isPrefixOf (c :: t) || containsSub needle t

/-- Python `needle in hay` for strings. -/
def pyContains (hay needle : String) : Bool := containsSub needle.data hay.data

/-- Python `s.startswith(pre)`. -/
def pyStartsWith (s pre : String) : Bool := pre.data.isPrefixOf s.data

/-- A regex word character (`\w`, ASCII fragment): letters, digits, underscore. -/
def isWordChar (c : Char) : Bool := c.isAlphanum || c == '_'

/-- Scanner for `re.search(r'\bWORD\b', s)`: looks for an occurrence of
`w` whose neighbours (if any) are not word characters.  `prev` is the
character just before the current position. -/
def wordSearchAux (w : List Char) : Option Char → List Char → Bool
  | _, [] => false
  | prev, c :: t =>
    (w.isPrefixOf (c :: t)
      && (match prev with | none => true | some p => !isWordChar p)
      && (match (c :: t).drop w.length with | [] => true | d :: _ => !isWordChar d))
    || wordSearchAux w (some c) t

/-- Python `re.search(r'\bw\b', s) is not None` for a word `w` made of word
characters (the only patterns the source uses: `\bSELECT\b`, `\bFROM\b`). -/
def wordSearch (w s : String) : Bool := wordSearchAux w.data none s.data

/-- One pass of Python `str.replace`: replaces non-overlapping occurrences of
`pat` left to right.  Fuel-indexed; `pyReplace` supplies enough fuel (each
step consumes at least one character of the haystack when `pat` is nonempty,
which is the case at every call site in the source). -/
def replaceListAux (pat rep : List Char) : Nat → List Char → List Char
  | 0, s => s
  | _ + 1, [] => []
  | fuel + 1, c :: t =>
    if !pat.isEmpty && pat.isPrefixOf (c :: t) then
      rep ++ replaceListAux pat rep fuel ((c :: t).drop pat.length)
    else
      c :: replaceListAux pat rep fuel t

/-- Python `s.replace(pat, rep)`. -/
def pyReplace (s pat rep : String) : String :=
  ⟨replaceListAux pat.data rep.data s.data.length s.data⟩

/-- Python f-string interpolation of an `Optional[str]`: `None` prints as
`"None"`. -/
def pyOptStr : Option String → String
  | none => "None"
  | some s => s

/-! ## SQL validator (`sql_validator.py`)

`SQLValidationAgent` with `max_iterations = 3`.  The settings
(`settings.gcp_project_id`, `settings.bq_dataset`) come from the
environment; we carry them as an explicit record. -/

/-- The configuration values `sql_validator.py` reads from
`config/settings.py` (environment-supplied). -/
structure Settings where
  gcp_project_id : String
  bq_dataset : String
deriving DecidableEq, Repr

/-- Embeds `validation_rules['bigquery_specific']['dataset_format']`:
`f"{settings.gcp_project_id}.{settings.bq_dataset}"`. -/
def datasetFormat (st : Settings) : String :=
  st.gcp_project_id ++ "." ++ st.bq_dataset

/-- Embeds `ValidationResult` from `sql_validator.py` (minus no fields; defaults as
in the dataclass, with `confidence_score : ℚ` for the Python float). -/
structure ValidationResult where
  is_valid : Bool
  error_message : Option String := none
  suggested_fix : Option String := none
  confidence_score : ℚ := 0
  validation_type : String := "unknown"
deriving DecidableEq, Repr

/-- Embeds `SQLValidationReport` (the wall-clock `execution_time` field is outside
the embedding). -/
structure SQLValidationReport where
  original_query : String
  final_query : String
  iterations : Nat
  validation_results : List ValidationResult
  success : Bool
  final_error : Option String := none
deriving DecidableEq, Repr

/-- The constant `self.max_iterations = 3` set in both agents' `__init__`. -/
def maxIterations : Nat := 3

/-- The `suggested_fix` built for a query with no SELECT statement in
`_validate_syntax`. -/
def selectDefaultFix (st : Settings) : String :=
  "SELECT * FROM " ++ datasetFormat st ++ ".cost_analysis LIMIT 10"

/-- Embeds `SQLValidationAgent._validate_syntax`.  `sqlparse.parse` returns an empty
statement tuple exactly for the empty string (the loop passes an already
stripped query), so `if not parsed` is modelled as `sql_query = ""`;
`sqlparse.parse` does not raise on ordinary strings, so the `except` arm of
the source is unreachable here.  The two entries of
`syntax_patterns['invalid_functions']` are checked in their list order. -/
def validateSyntaxCheck (st : Settings) (sql_query : String) : ValidationResult :=
  if sql_query = "" then
    { is_valid := false, error_message := some "Empty or invalid SQL query",
      validation_type := "syntax" }
  else
    let query_upper := upperStr sql_query
    if !wordSearch "SELECT" query_upper then
      { is_valid := false,
        error_message := some "SQL query must contain SELECT statement",
        suggested_fix := some (selectDefaultFix st),
        validation_type := "syntax" }
    else if !wordSearch "FROM" query_upper then
      { is_valid := false,
        error_message := some "SQL query must contain FROM clause",
        validation_type := "syntax" }
    else if pyContains query_upper "LIMIT_OFFSET" then
      { is_valid := false,
        error_message := some "Invalid function 'LIMIT_OFFSET' for BigQuery",
        validation_type := "syntax" }
    else if pyContains query_upper "ROWNUM" then
      { is_valid := false,
        error_message := some "Invalid function 'ROWNUM' for BigQuery",
        validation_type := "syntax" }
    else
      { is_valid := true, confidence_score := 9/10, validation_type := "syntax" }

/-- Embeds `SQLValidationAgent._validate_bigquery_specifics`. -/
def validateBigQuerySpecifics (st : Settings) (sql_query : String) : ValidationResult :=
  let query_upper := upperStr sql_query
  let dataset_format := datasetFormat st
  if pyContains sql_query "FROM cost_analysis" && !pyContains sql_query dataset_format then
    let fixed_query :=
      pyReplace
        (pyReplace sql_query "cost_analysis" (dataset_format ++ ".cost_analysis"))
        "FROM cost_analysis" ("FROM " ++ dataset_format ++ ".cost_analysis")
    { is_valid := false,
      error_message := some "Table name must be fully qualified with project and dataset",
      suggested_fix := some fixed_query,
      validation_type := "bigquery_specific" }
  else if pyContains query_upper "CURDATE()" || pyContains query_upper "NOW()" then
    let fixed_query :=
      pyReplace (pyReplace sql_query "CURDATE()" "CURRENT_DATE()") "NOW()" "CURRENT_DATETIME()"
    { is_valid := false,
      error_message := some "Use BigQuery date functions: CURRENT_DATE(), CURRENT_DATETIME()",
      suggested_fix := some fixed_query,
      validation_type := "bigquery_specific" }
  else
    { is_valid := true, confidence_score := 17/20, validation_type := "bigquery_specific" }

/-- The semantic-check oracle: `self.llm.ainvoke(prompt)` where the prompt is
built from the query and the original question.  `.error` models the call
raising (any exception). -/
def SemOracle : Type := String → String → Except Unit String

/-- Embeds `SQLValidationAgent._validate_semantics`.  On an oracle exception the
check fails open: valid with confidence `0.5`. -/
def validateSemantics (orc : SemOracle) (sql_query original_question : String) : ValidationResult :=
  match orc sql_query original_question with
  | .error _ =>
    { is_valid := true, confidence_score := 1/2, validation_type := "semantic" }
  | .ok response_text =>
    if pyStartsWith response_text "VALID" then
      { is_valid := true, confidence_score := 4/5, validation_type := "semantic" }
    else
      { is_valid := false,
        error_message := some ("Semantic validation failed: "
          ++ pyStrip (pyReplace response_text "INVALID:" "")),
        validation_type := "semantic" }

/-- The warehouse: `db.run(test_query)` either returns rows (ignored by the
check) or raises with a message string. -/
def Warehouse : Type := String → Except String Unit

/-- Embeds `SQLValidationAgent._validate_execution` (dry run with an appended
`LIMIT 1` when the query has none). -/
def validateExecution (st : Settings) (wh : Warehouse) (sql_query : String) : ValidationResult :=
  let test_query :=
    if !pyContains (upperStr sql_query) "LIMIT" then sql_query ++ " LIMIT 1" else sql_query
  match wh test_query with
  | .ok _ =>
    { is_valid := true, confidence_score := 19/20, validation_type := "execution" }
  | .error error_msg =>
    let suggested_fix :=
      if pyContains (lowerStr error_msg) "not found" then
        some (pyReplace sql_query "cost_analysis" (datasetFormat st ++ ".cost_analysis"))
      else if pyContains (lowerStr error_msg) "invalid date" then
        some (pyReplace sql_query "CURDATE()" "CURRENT_DATE()")
      else none
    { is_valid := false,
      error_message := some ("Query execution failed: " ++ error_msg),
      suggested_fix := suggested_fix,
      validation_type := "execution" }

/-- Embeds `SQLValidationAgent._validate_performance`.  Note the second membership
test of the source, `'SELECT cost_analysis.*' in query_upper`, keeps its
lower-case literal exactly as written (it can never match an upper-cased
string). -/
def validatePerformance (sql_query : String) : ValidationResult :=
  let query_upper := upperStr sql_query
  if !pyContains query_upper "LIMIT" && !pyContains query_upper "COUNT("
      && (pyContains query_upper "SELECT *" || pyContains query_upper "SELECT cost_analysis.*") then
    { is_valid := false,
      error_message := some "Query may return too many rows, consider adding LIMIT",
      suggested_fix := some (sql_query ++ " LIMIT 100"),
      validation_type := "performance" }
  else if pyContains query_upper "SELECT *" then
    { is_valid := false,
      error_message := some "Avoid SELECT * for better performance, specify columns",
      validation_type := "performance" }
  else
    { is_valid := true, confidence_score := 3/4, validation_type := "performance" }

/-- The all-checks-passed result of `_validate_single_iteration`. -/
def completeIterationResult (iteration : Nat) : ValidationResult :=
  { is_valid := true, confidence_score := 19/20,
    validation_type := "complete_iteration_" ++ toString iteration }

/-- Embeds `SQLValidationAgent._validate_single_iteration`: the five checks exactly
in source order — syntax, BigQuery-specific, semantic, execution,
performance — returning at the first invalid result. -/
def validateSingleIteration (st : Settings) (wh : Warehouse) (orc : SemOracle)
    (sql_query original_question : String) (iteration : Nat) : ValidationResult :=
  let syntax_result := validateSyntaxCheck st sql_query
  if !syntax_result.is_valid then syntax_result
  else
    let bigquery_result := validateBigQuerySpecifics st sql_query
    if !bigquery_result.is_valid then bigquery_result
    else
      let semantic_result := validateSemantics orc sql_query original_question
      if !semantic_result.is_valid then semantic_result
      else
        let execution_result := validateExecution st wh sql_query
        if !execution_result.is_valid then execution_result
        else
          let performance_result := validatePerformance sql_query
          if !performance_result.is_valid then performance_result
          else completeIterationResult iteration

/-- The repair oracle: `self.llm.ainvoke(prompt)` in
`_generate_sql_improvement`, a function of the query, the error message, the
question and the iteration (everything the prompt interpolates). -/
def RepairOracle : Type := String → Option String → String → Nat → Except Unit String

/-- Embeds `SQLValidationAgent._generate_sql_improvement`: LLM call, response
clean-up, and the basic sanity filter (length and a SELECT occurrence); any
exception yields `None`.  (`if improved_query and len(improved_query) > 10`:
the truthiness conjunct is subsumed by the length bound.) -/
def generateSqlImprovement (ro : RepairOracle)
    (sql_query : String) (error_message : Option String)
    (original_question : String) (iteration : Nat) : Option String :=
  match ro sql_query error_message original_question iteration with
  | .error _ => none
  | .ok response =>
    let improved := pyStrip response
    let improved :=
      if pyStartsWith improved "```sql" then
        pyStrip (pyReplace (pyReplace improved "```sql" "") "```" "")
      else improved
    if improved.length > 10 && pyContains (upperStr improved) "SELECT" then
      some improved
    else none

/-- The failure report built after the loop of `validate_sql_iteratively`
(reached both by iteration exhaustion and by the no-improvement `break`):
`iterations` is set to `self.max_iterations`, and `final_error` to the last
result's `error_message` (or the fixed string when no iteration ran). -/
def sqlFailReport (original_query current_query : String)
    (results : List ValidationResult) : SQLValidationReport :=
  { original_query := original_query, final_query := current_query,
    iterations := maxIterations, validation_results := results, success := false,
    final_error :=
      match results.getLast? with
      | none => some "Unknown validation error"
      | some r => r.error_message }

/-- The iteration loop of `validate_sql_iteratively`, fuel-indexed by the
remaining iterations (`rem`); `iteration` is the 1-based counter of the
source's `for iteration in range(1, self.max_iterations + 1)`. -/
def sqlLoopGo (st : Settings) (wh : Warehouse) (orc : SemOracle) (ro : RepairOracle)
    (original_question original_query : String) :
    Nat → Nat → String → List ValidationResult → SQLValidationReport
  | 0, _, current_query, results => sqlFailReport original_query current_query results
  | rem + 1, iteration, current_query, results =>
    let vr := validateSingleIteration st wh orc current_query original_question iteration
    let results := results ++ [vr]
    if vr.is_valid then
      { original_query := original_query, final_query := current_query,
        iterations := iteration, validation_results := results, success := true }
    else
      match vr.suggested_fix with
      | some fix =>
        sqlLoopGo st wh orc ro original_question original_query rem (iteration + 1) fix results
      | none =>
        match generateSqlImprovement ro current_query vr.error_message original_question iteration with
        | some improved =>
          if improved ≠ current_query then
            sqlLoopGo st wh orc ro original_question original_query rem (iteration + 1) improved results
          else sqlFailReport original_query current_query results
        | none => sqlFailReport original_query current_query results

/-- Embeds `SQLValidationAgent.validate_sql_iteratively`: strips the query once,
then runs up to `max_iterations = 3` validate/repair iterations. -/
def validateSqlIteratively (st : Settings) (wh : Warehouse) (orc : SemOracle) (ro : RepairOracle)
    (sql_query original_question : String) : SQLValidationReport :=
  sqlLoopGo st wh orc ro original_question sql_query maxIterations 1 (pyStrip sql_query) []

/-- Modelled from the spec: the check order §4.3/§4.4 prescribes for one SQL
validation iteration — "structural → domain/dialect → performance →
execution-dry-run → semantic-via-oracle last", fail-fast.  Stated for
refinement comparison with `validateSingleIteration`, which embeds the
source's `_validate_single_iteration`. -/
def validateSingleIterationSpecOrder (st : Settings) (wh : Warehouse) (orc : SemOracle)
    (sql_query original_question : String) (iteration : Nat) : ValidationResult :=
  let r1 := validateSyntaxCheck st sql_query
  if !r1.is_valid then r1
  else
    let r2 := validateBigQuerySpecifics st sql_query
    if !r2.is_valid then r2
    else
      let r3 := validatePerformance sql_query
      if !r3.is_valid then r3
      else
        let r4 := validateExecution st wh sql_query
        if !r4.is_valid then r4
        else
          let r5 := validateSemantics orc sql_query original_question
          if !r5.is_valid then r5
          else completeIterationResult iteration

/-- Generic fail-fast combinator: the first invalid result of the list, or
the supplied all-valid result.  Used to characterise the iteration functions
of both validators. -/
def firstFailing (dflt : ValidationResult) : List ValidationResult → ValidationResult
  | [] => dflt
  | r :: t => if r.is_valid then firstFailing dflt t else r

/-! ## Chart-data values (`graph_validator.py`)

The chart "data" is a loosely structured Python dict (JSON-shaped).  `JVal`
models the values that occur in it; `ChartData` models the dict itself as an
insertion-ordered association list with unique keys.  Python `int` and
`float` are both modelled as `ℚ` (the validators compare, add and divide
them exactly; the `int`/`float` distinction is observable only in repr
strings, see `jvalRepr`).  Python `bool` (an `int` subclass) does not occur
in chart payloads and is outside the embedding. -/

inductive JVal where
  | null : JVal
  | s (v : String) : JVal
  | num (v : ℚ) : JVal
  | list (l : List JVal) : JVal
  | dict (d : List (String × JVal)) : JVal
deriving Repr

mutual

/-- Decidable equality for `JVal` (the nested inductive defeats the
automatic derivation, so the three mutually recursive deciders are spelled
out). -/
def jvalDecEq : (a b : JVal) → Decidable (a = b)
  | .null, .null => isTrue rfl
  | .null, .s _ => isFalse (fun h => nomatch h)
  | .null, .num _ => isFalse (fun h => nomatch h)
  | .null, .list _ => isFalse (fun h => nomatch h)
  | .null, .dict _ => isFalse (fun h => nomatch h)
  | .s _, .null => isFalse (fun h => nomatch h)
  | .s a, .s b =>
    match decEq a b with
    | isTrue h => isTrue (by rw [h])
    | isFalse h => isFalse (fun hh => h (by injection hh))
  | .s _, .num _ => isFalse (fun h => nomatch h)
  | .s _, .list _ => isFalse (fun h => nomatch h)
  | .s _, .dict _ => isFalse (fun h => nomatch h)
  | .num _, .null => isFalse (fun h => nomatch h)
  | .num _, .s _ => isFalse (fun h => nomatch h)
  | .num a, .num b =>
    match decEq a b with
    | isTrue h => isTrue (by rw [h])
    | isFalse h => isFalse (fun hh => h (by injection hh))
  | .num _, .list _ => isFalse (fun h => nomatch h)
  | .num _, .dict _ => isFalse (fun h => nomatch h)
  | .list _, .null => isFalse (fun h => nomatch h)
  | .list _, .s _ => isFalse (fun h => nomatch h)
  | .list _, .num _ => isFalse (fun h => nomatch h)
  | .list a, .list b =>
    match jvalListDecEq a b with
    | isTrue h => isTrue (by rw [h])
    | isFalse h => isFalse (fun hh => h (by injection hh))
  | .list _, .dict _ => isFalse (fun h => nomatch h)
  | .dict _, .null => isFalse (fun h => nomatch h)
  | .dict _, .s _ => isFalse (fun h => nomatch h)
  | .dict _, .num _ => isFalse (fun h => nomatch h)
  | .dict _, .list _ => isFalse (fun h => nomatch h)
  | .dict a, .dict b =>
    match jvalDictDecEq a b with
    | isTrue h => isTrue (by rw [h])
    | isFalse h => isFalse (fun hh => h (by injection hh))

/-- Decidable equality for lists of `JVal`. -/
def jvalListDecEq : (a b : List JVal) → Decidable (a = b)
  | [], [] => isTrue rfl
  | [], _ :: _ => isFalse (fun h => nomatch h)
  | _ :: _, [] => isFalse (fun h => nomatch h)
  | x :: xs, y :: ys =>
    match jvalDecEq x y, jvalListDecEq xs ys with
    | isTrue h1, isTrue h2 => isTrue (by rw [h1, h2])
    | isFalse h1, _ => isFalse (fun hh => h1 (by injection hh))
    | _, isFalse h2 => isFalse (fun hh => h2 (by injection hh))

/-- Decidable equality for `JVal` dict entry lists. -/
def jvalDictDecEq : (a b : List (String × JVal)) → Decidable (a = b)
  | [], [] => isTrue rfl
  | [], _ :: _ => isFalse (fun h => nomatch h)
  | _ :: _, [] => isFalse (fun h => nomatch h)
  | (k1, v1) :: xs, (k2, v2) :: ys =>
    match decEq k1 k2, jvalDecEq v1 v2, jvalDictDecEq xs ys with
    | isTrue h1, isTrue h2, isTrue h3 => isTrue (by rw [h1, h2, h3])
    | isFalse h1, _, _ =>
      isFalse (fun hh => h1 (by injection hh with hp _; injection hp))
    | _, isFalse h2, _ =>
      isFalse (fun hh => h2 (by injection hh with hp _; injection hp))
    | _, _, isFalse h3 => isFalse (fun hh => h3 (by injection hh))

end

instance : DecidableEq JVal := jvalDecEq

/-- Chart data: a Python dict with string keys (unique, insertion-ordered). -/
abbrev ChartData : Type := List (String × JVal)

/-- Embeds `k in d` for a Python dict. -/
def dictContains (d : ChartData) (k : String) : Bool :=
  d.any (fun p => p.1 == k)

/-- Embeds `d.get(k, dflt)`. -/
def dictGetD (d : ChartData) (k : String) (dflt : JVal) : JVal :=
  match d.find? (fun p => p.1 == k) with
  | some p => p.2
  | none => dflt

/-- Embeds `d[k] = v`: replaces in place if the key exists (keys are unique), else
appends. -/
def dictSet (d : ChartData) (k : String) (v : JVal) : ChartData :=
  if dictContains d k then d.map (fun p => if p.1 == k then (k, v) else p)
  else d ++ [(k, v)]

/-- Python `len` on a list value.  On a non-list Python raises `TypeError`
(which would crash the whole validator); every claim below stays on payloads
whose list-typed fields are lists, where this total version agrees with the
source. -/
def jvalLen : JVal → Nat
  | .list l => l.length
  | _ => 0

/-- The elements of a list value (`[]` for a non-list, see `jvalLen`). -/
def jvalElems : JVal → List JVal
  | .list l => l
  | _ => []

/-- Python `str(v)` as used inside f-string error messages.  Exact for
strings; numbers render as rationals (the embedding does not reproduce
float repr digits — no claim inspects a message built from a number that is
not a natural number). -/
def jvalRepr : JVal → String
  | .null => "None"
  | .s v => v
  | .num v => if v.den = 1 then toString v.num else toString v.num ++ "/" ++ toString v.den
  | .list _ => "[...]"
  | .dict _ => "\x7b...\x7d"

/-- Embeds `float(s)` for a string, Python's finite-decimal grammar:
`[+-]?(digits[.digits*]? | .digits+)([eE][+-]?digits+)?` after stripping
whitespace.  (`inf`/`nan` and underscore separators are outside the
embedding; the validators only use success/failure of the conversion.) -/
def pyFloatParse (s : String) : Option ℚ :=
  let l := (pyStrip s).data
  let sgnl : ℚ × List Char :=
    match l with
    | '+' :: t => (1, t)
    | '-' :: t => (-1, t)
    | _ => (1, l)
  let ip := sgnl.2.takeWhile Char.isDigit
  let r1 := sgnl.2.dropWhile Char.isDigit
  let fpr : List Char × List Char :=
    match r1 with
    | '.' :: t => (t.takeWhile Char.isDigit, t.dropWhile Char.isDigit)
    | _ => ([], r1)
  if ip.isEmpty && fpr.1.isEmpty && !(r1.headD ' ' == '.') then none
  else if ip.isEmpty && fpr.1.isEmpty then none
  else
    let digitsToNat : List Char → Nat := fun ds => ds.foldl (fun a c => a * 10 + (c.toNat - 48)) 0
    let mant : ℚ := (digitsToNat ip : ℚ) + (digitsToNat fpr.1 : ℚ) / ((10 : ℚ) ^ fpr.1.length)
    match fpr.2 with
    | [] => some (sgnl.1 * mant)
    | 'e' :: t | 'E' :: t =>
      let esgn : Bool × List Char :=
        match t with
        | '+' :: t2 => (true, t2)
        | '-' :: t2 => (false, t2)
        | _ => (true, t)
      let ed := esgn.2.takeWhile Char.isDigit
      if ed.isEmpty || !(esgn.2.dropWhile Char.isDigit).isEmpty then none
      else if esgn.1 then some (sgnl.1 * mant * (10 : ℚ) ^ digitsToNat ed)
      else some (sgnl.1 * mant / (10 : ℚ) ^ digitsToNat ed)
    | _ => none

/-- Embeds `float(v)` for a `JVal`: numbers convert to themselves, strings parse,
anything else raises (`none`). -/
def jvalFloat : JVal → Option ℚ
  | .num q => some q
  | .s str => pyFloatParse str
  | _ => none

/-! ## Graph validator (`graph_validator.py`) -/

/-- Embeds `GraphValidationResult`. -/
structure GraphValidationResult where
  is_valid : Bool
  error_message : Option String := none
  suggested_fix : Option ChartData := none
  confidence_score : ℚ := 0
  validation_type : String := "unknown"
  data_quality_score : ℚ := 0
deriving DecidableEq, Repr

/-- Embeds `GraphValidationReport` (again minus the wall-clock `execution_time`). -/
structure GraphValidationReport where
  original_data : ChartData
  final_data : ChartData
  chart_type : String
  iterations : Nat
  validation_results : List GraphValidationResult
  success : Bool
  data_points : Nat := 0
  final_error : Option String := none
deriving DecidableEq, Repr

/-- Embeds `validation_rules['chart_requirements'][t]`: required fields, min and max
data points, per chart type (`none` for an unsupported type). -/
def chartRequirements : String → Option (List String × Nat × Nat)
  | "bar" => some (["labels", "values"], 1, 50)
  | "pie" => some (["labels", "values"], 2, 20)
  | "line" => some (["dates", "values"], 2, 1000)
  | "scatter" => some (["points"], 3, 500)
  | "indicator" => some (["value"], 1, 1)
  | "heatmap" => some (["matrix", "rows", "cols"], 4, 10000)
  | _ => none

/-- The `data_types` entry of `chart_requirements`: either Python's `list`
class or the `(int, float)` tuple. -/
inductive FieldType where
  | listT : FieldType
  | numT : FieldType
deriving DecidableEq, Repr

/-- The `data_types` dicts, in their source order. -/
def chartDataTypes : String → List (String × FieldType)
  | "bar" => [("labels", .listT), ("values", .listT)]
  | "pie" => [("labels", .listT), ("values", .listT)]
  | "line" => [("dates", .listT), ("values", .listT)]
  | "scatter" => [("points", .listT)]
  | "indicator" => [("value", .numT)]
  | "heatmap" => [("matrix", .listT), ("rows", .listT), ("cols", .listT)]
  | _ => []

/-- Does a value satisfy an `isinstance` test against a `data_types` entry? -/
def fieldTypeMatches : FieldType → JVal → Bool
  | .listT, .list _ => true
  | .numT, .num _ => true
  | _, _ => false

/-- Rendering of the expected class in the type-error message
(`<class 'list'>` or `(<class 'int'>, <class 'float'>)`). -/
def fieldTypeRepr : FieldType → String
  | .listT => "<class 'list'>"
  | .numT => "(<class 'int'>, <class 'float'>)"

/-- Embeds `type(v)` rendering for the same message.  Numbers render as
`<class 'float'>`: the embedding merges `int` and `float` (see `JVal`), and
no claim depends on this message. -/
def jvalTypeRepr : JVal → String
  | .null => "<class 'NoneType'>"
  | .s _ => "<class 'str'>"
  | .num _ => "<class 'float'>"
  | .list _ => "<class 'list'>"
  | .dict _ => "<class 'dict'>"

/-- Embeds `GraphDataValidationAgent._count_data_points`. -/
def countDataPoints (chart_data : ChartData) (chart_type : String) : Nat :=
  if chart_type == "indicator" then
    if dictContains chart_data "value" then 1 else 0
  else if chart_type == "bar" || chart_type == "pie" then
    jvalLen (dictGetD chart_data "values" (.list []))
  else if chart_type == "line" then
    jvalLen (dictGetD chart_data "dates" (.list []))
  else if chart_type == "scatter" then
    jvalLen (dictGetD chart_data "points" (.list []))
  else if chart_type == "heatmap" then
    (jvalElems (dictGetD chart_data "matrix" (.list []))).foldl
      (fun acc row => acc + (match row with | .list r => r.length | _ => 0)) 0
  else 0

/-- Embeds `GraphDataValidationAgent._truncate_data`: keep the first `max_points`
entries of the kind's data arrays (a dict copy with sliced lists). -/
def truncateData (chart_data : ChartData) (chart_type : String) (max_points : Nat) : ChartData :=
  if chart_type == "bar" || chart_type == "pie" then
    let d1 :=
      if dictContains chart_data "values" then
        dictSet chart_data "values" (.list ((jvalElems (dictGetD chart_data "values" (.list []))).take max_points))
      else chart_data
    if dictContains d1 "labels" then
      dictSet d1 "labels" (.list ((jvalElems (dictGetD d1 "labels" (.list []))).take max_points))
    else d1
  else if chart_type == "line" then
    let d1 :=
      if dictContains chart_data "dates" then
        dictSet chart_data "dates" (.list ((jvalElems (dictGetD chart_data "dates" (.list []))).take max_points))
      else chart_data
    if dictContains d1 "values" then
      dictSet d1 "values" (.list ((jvalElems (dictGetD d1 "values" (.list []))).take max_points))
    else d1
  else if chart_type == "scatter" then
    if dictContains chart_data "points" then
      dictSet chart_data "points" (.list ((jvalElems (dictGetD chart_data "points" (.list []))).take max_points))
    else chart_data
  else chart_data

/-- Python repr of a list of field names: `['labels', 'values']`. -/
def pyStrListRepr (l : List String) : String :=
  "[" ++ String.intercalate ", " (l.map (fun f => "'" ++ f ++ "'")) ++ "]"

/-- Embeds `GraphDataValidationAgent._validate_data_structure`. -/
def validateDataStructure (chart_data : ChartData) (chart_type : String) : GraphValidationResult :=
  match chartRequirements chart_type with
  | none =>
    { is_valid := false,
      error_message := some ("Unsupported chart type: " ++ chart_type),
      validation_type := "structure" }
  | some (required_fields, min_points, max_points) =>
    let missing_fields := required_fields.filter (fun f => !dictContains chart_data f)
    if !missing_fields.isEmpty then
      { is_valid := false,
        error_message := some ("Missing required fields for " ++ chart_type ++ ": "
          ++ pyStrListRepr missing_fields),
        validation_type := "structure" }
    else
      let data_count := countDataPoints chart_data chart_type
      if data_count < min_points then
        { is_valid := false,
          error_message := some ("Insufficient data points: " ++ toString data_count
            ++ " < " ++ toString min_points),
          validation_type := "structure" }
      else if data_count > max_points then
        { is_valid := false,
          error_message := some ("Too many data points: " ++ toString data_count
            ++ " > " ++ toString max_points),
          suggested_fix := some (truncateData chart_data chart_type max_points),
          validation_type := "structure" }
      else
        { is_valid := true, confidence_score := 9/10, validation_type := "structure" }

/-- The per-element scan of `_validate_numeric_data` over a list field
(`idx` is the running `enumerate` index): first a convertibility test for
non-numbers, then the magnitude test for numbers. -/
def numericScan (field : String) (idx : Nat) : List JVal → Option GraphValidationResult
  | [] => none
  | v :: t =>
    match v with
    | .num q =>
      if !(-(10 ^ 15 : ℚ) < q ∧ q < 10 ^ 15) then
        some { is_valid := false,
               error_message := some ("Numeric value out of reasonable range: " ++ jvalRepr (.num q)),
               validation_type := "numeric_data" }
      else numericScan field (idx + 1) t
    | other =>
      match jvalFloat other with
      | none =>
        some { is_valid := false,
               error_message := some ("Non-numeric value at index " ++ toString idx
                 ++ " in " ++ field ++ ": " ++ jvalRepr other),
               validation_type := "numeric_data" }
      | some _ => numericScan field (idx + 1) t

/-- Embeds `_validate_numeric_data` for one of the fields `'values'`, `'value'`. -/
def numericFieldCheck (chart_data : ChartData) (field : String) : Option GraphValidationResult :=
  if dictContains chart_data field then
    match dictGetD chart_data field .null with
    | .list l => numericScan field 0 l
    | .num q =>
      if !(-(10 ^ 15 : ℚ) < q ∧ q < 10 ^ 15) then
        some { is_valid := false,
               error_message := some ("Numeric value out of reasonable range: " ++ jvalRepr (.num q)),
               validation_type := "numeric_data" }
      else none
    | _ => none
  else none

/-- Embeds `GraphDataValidationAgent._validate_numeric_data`. -/
def validateNumericData (chart_data : ChartData) : GraphValidationResult :=
  match numericFieldCheck chart_data "values" with
  | some r => r
  | none =>
    match numericFieldCheck chart_data "value" with
    | some r => r
    | none =>
      { is_valid := true, confidence_score := 4/5, validation_type := "numeric_data" }

/-- Embeds `GraphDataValidationAgent._validate_data_types`: `isinstance` tests
against the kind's `data_types`, then the numeric scan. -/
def validateDataTypes (chart_data : ChartData) (chart_type : String) : GraphValidationResult :=
  let rec loop : List (String × FieldType) → Option GraphValidationResult
    | [] => none
    | (field, ft) :: rest =>
      if dictContains chart_data field then
        let actual := dictGetD chart_data field .null
        if !fieldTypeMatches ft actual then
          some { is_valid := false,
                 error_message := some ("Invalid type for " ++ field ++ ": expected "
                   ++ fieldTypeRepr ft ++ ", got " ++ jvalTypeRepr actual),
                 validation_type := "data_types" }
        else loop rest
      else loop rest
  match loop (chartDataTypes chart_type) with
  | some r => r
  | none =>
    let numeric := validateNumericData chart_data
    if !numeric.is_valid then numeric
    else { is_valid := true, confidence_score := 17/20, validation_type := "data_types" }

mutual

/-- Embeds `count_missing_in_value` from `_count_missing_data`: `None`, `''` and
`'null'` count as missing; lists and dicts are scanned recursively. -/
def countMissingVal : JVal → Nat
  | .null => 1
  | .s str => if str = "" ∨ str = "null" then 1 else 0
  | .num _ => 0
  | .list l => countMissingList l
  | .dict d => countMissingDictEntries d

/-- Recursive scan of a list for `_count_missing_data`. -/
def countMissingList : List JVal → Nat
  | [] => 0
  | v :: t => countMissingVal v + countMissingList t

/-- Recursive scan of a dict's values for `_count_missing_data`. -/
def countMissingDictEntries : List (String × JVal) → Nat
  | [] => 0
  | (_, v) :: t => countMissingVal v + countMissingDictEntries t

end

/-- Embeds `GraphDataValidationAgent._count_missing_data`: the sum over the dict's
values. -/
def countMissingData (chart_data : ChartData) : Nat :=
  countMissingDictEntries chart_data

mutual

/-- Embeds `count_elements_in_value` from `_count_total_data_elements`: a list
counts as its length (not recursively), a dict as the recursive sum over its
values, anything else as `1`. -/
def countTotalVal : JVal → Nat
  | .list l => l.length
  | .dict d => countTotalDictEntries d
  | _ => 1

/-- Recursive scan of a dict's values for `_count_total_data_elements`. -/
def countTotalDictEntries : List (String × JVal) → Nat
  | [] => 0
  | (_, v) :: t => countTotalVal v + countTotalDictEntries t

end

/-- Embeds `GraphDataValidationAgent._count_total_data_elements`. -/
def countTotalDataElements (chart_data : ChartData) : Nat :=
  countTotalDictEntries chart_data

/-- The numeric entries of a list value (`isinstance(v, (int, float))`). -/
def numericEntries (l : List JVal) : List ℚ :=
  l.filterMap (fun v => match v with | .num q => some q | _ => none)

/-- Fixed-point rendering of a ratio as a percentage with one decimal,
Python `f"{x:.1%}"` (round-half-even on the last digit).  Only appears
inside the missing-data error message. -/
def pctRepr (x : ℚ) : String :=
  let scaled : ℚ := x * 1000
  let fl : Int := scaled.floor
  let frac : ℚ := scaled - (fl : ℚ)
  let n : Int :=
    if frac > 1/2 then fl + 1
    else if frac < 1/2 then fl
    else if fl % 2 = 0 then fl else fl + 1
  toString (n / 10) ++ "." ++ toString (n % 10).natAbs ++ "%"

/-- Embeds `GraphDataValidationAgent._check_data_variance` for the list under one
of the fields `'values'`/`'value'`: all-identical numeric data (variance
below the `0.01` threshold and literally constant) is flagged. -/
def varianceFieldCheck (chart_data : ChartData) (field : String) : Option GraphValidationResult :=
  if dictContains chart_data field then
    match dictGetD chart_data field .null with
    | .list l =>
      if l.length > 1 then
        let numeric_values := numericEntries l
        if numeric_values.length > 1 then
          let mean : ℚ := numeric_values.sum / (numeric_values.length : ℚ)
          let variance : ℚ :=
            (numeric_values.map (fun x => (x - mean) ^ 2)).sum / (numeric_values.length : ℚ)
          if variance < 1/100 then
            if numeric_values.all (fun v => v == numeric_values.headD 0) then
              some { is_valid := false,
                     error_message := some "All data values are identical, no variation to visualize",
                     validation_type := "data_variance" }
            else none
          else none
        else none
      else none
    | _ => none
  else none

/-- Embeds `GraphDataValidationAgent._check_data_variance`. -/
def checkDataVariance (chart_data : ChartData) : GraphValidationResult :=
  match varianceFieldCheck chart_data "values" with
  | some r => r
  | none =>
    match varianceFieldCheck chart_data "value" with
    | some r => r
    | none =>
      { is_valid := true, confidence_score := 7/10, validation_type := "data_variance" }

/-- Embeds `GraphDataValidationAgent._check_duplicates`: for `bar`/`pie`, the
duplicate-label ratio `1 - len(set(labels))/len(labels)` must not exceed
`0.05`. -/
def checkDuplicates (chart_data : ChartData) (chart_type : String) : GraphValidationResult :=
  if (chart_type == "bar" || chart_type == "pie") && dictContains chart_data "labels" then
    let labels := jvalElems (dictGetD chart_data "labels" (.list []))
    let duplicate_percentage : ℚ :=
      if !labels.isEmpty then 1 - ((labels.dedup.length : ℚ) / (labels.length : ℚ)) else 0
    if duplicate_percentage > 1/20 then
      { is_valid := false,
        error_message := some ("Too many duplicate labels: " ++ pctRepr duplicate_percentage),
        validation_type := "duplicates" }
    else
      { is_valid := true, confidence_score := 4/5, validation_type := "duplicates" }
  else
    { is_valid := true, confidence_score := 4/5, validation_type := "duplicates" }

/-- Embeds `GraphDataValidationAgent._validate_data_quality`: missing-data ratio,
variance, duplicates — first failure wins. -/
def validateDataQuality (chart_data : ChartData) (chart_type : String) : GraphValidationResult :=
  let missing_count := countMissingData chart_data
  let total_count := countTotalDataElements chart_data
  let missingFail :=
    if total_count > 0 then
      let missing_percentage : ℚ := (missing_count : ℚ) / (total_count : ℚ)
      if missing_percentage > 1/10 then
        some { is_valid := false,
               error_message := some ("Too much missing data: " ++ pctRepr missing_percentage
                 ++ " > " ++ pctRepr (1/10)),
               validation_type := "data_quality" }
      else none
    else none
  match missingFail with
  | some r => r
  | none =>
    let variance_check := checkDataVariance chart_data
    if !variance_check.is_valid then variance_check
    else
      let duplicate_check := checkDuplicates chart_data chart_type
      if !duplicate_check.is_valid then duplicate_check
      else
        { is_valid := true, confidence_score := 3/4, validation_type := "data_quality" }

/-- Embeds `GraphDataValidationAgent._validate_pie_chart`. -/
def validatePieChart (chart_data : ChartData) : GraphValidationResult :=
  if dictContains chart_data "values" && dictContains chart_data "labels" then
    let values := jvalElems (dictGetD chart_data "values" (.list []))
    let labels := jvalElems (dictGetD chart_data "labels" (.list []))
    if values.length ≠ labels.length then
      { is_valid := false,
        error_message := some ("Values and labels length mismatch: " ++ toString values.length
          ++ " vs " ++ toString labels.length),
        validation_type := "pie_specific" }
    else if (numericEntries values).any (fun v => v < 0) then
      { is_valid := false,
        error_message := some "Pie charts cannot have negative values",
        validation_type := "pie_specific" }
    else if (numericEntries values).sum ≤ 0 then
      { is_valid := false,
        error_message := some "Pie chart values must sum to a positive number",
        validation_type := "pie_specific" }
    else
      { is_valid := true, confidence_score := 9/10, validation_type := "pie_specific" }
  else
    { is_valid := true, confidence_score := 9/10, validation_type := "pie_specific" }

/-- Embeds `re.match(r'\d{4}-\d{2}-\d{2}', s)`: a `YYYY-MM-DD`-shaped prefix. -/
def dateLikePrefix (s : String) : Bool :=
  match s.data with
  | a :: b :: c :: d :: '-' :: e :: f :: '-' :: g :: h :: _ =>
    a.isDigit && b.isDigit && c.isDigit && d.isDigit && e.isDigit && f.isDigit
      && g.isDigit && h.isDigit
  | _ => false

/-- The string payloads of a list of values (entries that are not strings
are dropped, as the source's `isinstance(date_str, str)` filter does). -/
def stringEntries (l : List JVal) : List String :=
  l.filterMap (fun v => match v with | .s str => some str | _ => none)

/-- Embeds `GraphDataValidationAgent._validate_line_chart`.  The chronological-order
block sits in a `try` whose sort compares raw `dates` elements; when a
non-string is present Python raises `TypeError` there, lands in `except:
pass`, and the check succeeds — hence the `allStrings` guard on the sorting
branch. -/
def validateLineChart (chart_data : ChartData) : GraphValidationResult :=
  if dictContains chart_data "dates" && dictContains chart_data "values" then
    let dates := jvalElems (dictGetD chart_data "dates" (.list []))
    let values := jvalElems (dictGetD chart_data "values" (.list []))
    if dates.length ≠ values.length then
      { is_valid := false,
        error_message := some ("Dates and values length mismatch: " ++ toString dates.length
          ++ " vs " ++ toString values.length),
        validation_type := "line_specific" }
    else if dates.length > 1 then
      let parsed_dates := (stringEntries dates).filter dateLikePrefix
      let allStrings := dates.all (fun d => match d with | .s _ => true | _ => false)
      if parsed_dates.length > 1
          && parsed_dates ≠ parsed_dates.mergeSort (fun a b => a ≤ b)
          && allStrings then
        let keys := stringEntries dates
        let sorted_indices :=
          (List.range dates.length).mergeSort (fun i j => keys.getD i "" ≤ keys.getD j "")
        let sorted_data : ChartData :=
          [("dates", .list (sorted_indices.map (fun i => dates.getD i .null))),
           ("values", .list (sorted_indices.map (fun i => values.getD i .null)))]
        { is_valid := false,
          error_message := some "Line chart dates should be in chronological order",
          suggested_fix := some sorted_data,
          validation_type := "line_specific" }
      else
        { is_valid := true, confidence_score := 17/20, validation_type := "line_specific" }
    else
      { is_valid := true, confidence_score := 17/20, validation_type := "line_specific" }
  else
    { is_valid := true, confidence_score := 17/20, validation_type := "line_specific" }

/-- The per-point scan of `_validate_scatter_chart`. -/
def scatterScan (idx : Nat) : List JVal → Option GraphValidationResult
  | [] => none
  | p :: t =>
    match p with
    | .dict entries =>
      if !(entries.any (fun e => e.1 == "x")) || !(entries.any (fun e => e.1 == "y")) then
        some { is_valid := false,
               error_message := some ("Point " ++ toString idx ++ " missing x or y coordinate"),
               validation_type := "scatter_specific" }
      else scatterScan (idx + 1) t
    | _ =>
      some { is_valid := false,
             error_message := some ("Point " ++ toString idx ++ " is not a dictionary"),
             validation_type := "scatter_specific" }

/-- Embeds `GraphDataValidationAgent._validate_scatter_chart`. -/
def validateScatterChart (chart_data : ChartData) : GraphValidationResult :=
  if dictContains chart_data "points" then
    match scatterScan 0 (jvalElems (dictGetD chart_data "points" (.list []))) with
    | some r => r
    | none =>
      { is_valid := true, confidence_score := 4/5, validation_type := "scatter_specific" }
  else
    { is_valid := true, confidence_score := 4/5, validation_type := "scatter_specific" }

/-- Embeds `GraphDataValidationAgent._validate_bar_chart`. -/
def validateBarChart (chart_data : ChartData) : GraphValidationResult :=
  if dictContains chart_data "values" && dictContains chart_data "labels" then
    let values := jvalElems (dictGetD chart_data "values" (.list []))
    let labels := jvalElems (dictGetD chart_data "labels" (.list []))
    if values.length ≠ labels.length then
      { is_valid := false,
        error_message := some ("Values and labels length mismatch: " ++ toString values.length
          ++ " vs " ++ toString labels.length),
        validation_type := "bar_specific" }
    else
      { is_valid := true, confidence_score := 9/10, validation_type := "bar_specific" }
  else
    { is_valid := true, confidence_score := 9/10, validation_type := "bar_specific" }

/-- Embeds `GraphDataValidationAgent._validate_indicator_chart`. -/
def validateIndicatorChart (chart_data : ChartData) : GraphValidationResult :=
  if dictContains chart_data "value" then
    match dictGetD chart_data "value" .null with
    | .num _ =>
      { is_valid := true, confidence_score := 19/20, validation_type := "indicator_specific" }
    | _ =>
      { is_valid := false,
        error_message := some "Indicator value must be numeric",
        validation_type := "indicator_specific" }
  else
    { is_valid := true, confidence_score := 19/20, validation_type := "indicator_specific" }

/-- Embeds `GraphDataValidationAgent._validate_heatmap_chart`. -/
def validateHeatmapChart (chart_data : ChartData) : GraphValidationResult :=
  if dictContains chart_data "matrix" then
    match dictGetD chart_data "matrix" .null with
    | .list matrix =>
      if matrix.isEmpty then
        { is_valid := false,
          error_message := some "Heatmap matrix must be a non-empty list",
          validation_type := "heatmap_specific" }
      else
        let row_lengths := matrix.filterMap
          (fun row => match row with | .list r => some r.length | _ => none)
        if !row_lengths.isEmpty && !(row_lengths.all (fun n => n == row_lengths.headD 0)) then
          { is_valid := false,
            error_message := some "Heatmap matrix rows must have equal length",
            validation_type := "heatmap_specific" }
        else
          { is_valid := true, confidence_score := 4/5, validation_type := "heatmap_specific" }
    | _ =>
      { is_valid := false,
        error_message := some "Heatmap matrix must be a non-empty list",
        validation_type := "heatmap_specific" }
  else
    { is_valid := true, confidence_score := 4/5, validation_type := "heatmap_specific" }

/-- Embeds `GraphDataValidationAgent._validate_chart_specific`: dispatch by chart
type; unmatched types pass with confidence `0.7`. -/
def validateChartSpecific (chart_data : ChartData) (chart_type : String) : GraphValidationResult :=
  if chart_type == "pie" then validatePieChart chart_data
  else if chart_type == "line" then validateLineChart chart_data
  else if chart_type == "scatter" then validateScatterChart chart_data
  else if chart_type == "bar" then validateBarChart chart_data
  else if chart_type == "indicator" then validateIndicatorChart chart_data
  else if chart_type == "heatmap" then validateHeatmapChart chart_data
  else { is_valid := true, confidence_score := 7/10, validation_type := "chart_specific" }

/-- The chart semantic-check oracle: `self.llm.ainvoke(prompt)` in
`_validate_data_semantics`; the prompt is a function of the data, the chart
type, the original answer and the question. -/
def GraphSemOracle : Type := ChartData → String → String → String → Except Unit String

/-- Embeds `GraphDataValidationAgent._validate_data_semantics` — fails open exactly
like its SQL counterpart. -/
def validateDataSemantics (orc : GraphSemOracle) (chart_data : ChartData)
    (chart_type original_answer original_question : String) : GraphValidationResult :=
  match orc chart_data chart_type original_answer original_question with
  | .error _ =>
    { is_valid := true, confidence_score := 1/2, validation_type := "semantic" }
  | .ok response_text =>
    if pyStartsWith response_text "VALID" then
      { is_valid := true, confidence_score := 4/5, validation_type := "semantic" }
    else
      { is_valid := false,
        error_message := some ("Semantic validation failed: "
          ++ pyStrip (pyReplace response_text "INVALID:" "")),
        validation_type := "semantic" }

/-- Embeds `GraphDataValidationAgent._calculate_data_quality_score`: the average of
completeness, a fixed consistency placeholder `0.8` and a fixed validity
placeholder `0.9`. -/
def calculateDataQualityScore (chart_data : ChartData) (_chart_type : String) : ℚ :=
  let missing_count := countMissingData chart_data
  let total_count := countTotalDataElements chart_data
  let completeness : ℚ :=
    if total_count > 0 then 1 - ((missing_count : ℚ) / (total_count : ℚ)) else 0
  (completeness + 4/5 + 9/10) / 3

/-- The all-checks-passed result of the graph `_validate_single_iteration`. -/
def completeGraphIterationResult (chart_data : ChartData) (chart_type : String)
    (iteration : Nat) : GraphValidationResult :=
  { is_valid := true, confidence_score := 19/20,
    data_quality_score := calculateDataQualityScore chart_data chart_type,
    validation_type := "complete_iteration_" ++ toString iteration }

/-- Embeds `GraphDataValidationAgent._validate_single_iteration`: structure, types,
quality, chart-specific, then semantic — first failure wins. -/
def validateGraphSingleIteration (orc : GraphSemOracle) (chart_data : ChartData)
    (chart_type original_answer original_question : String) (iteration : Nat) :
    GraphValidationResult :=
  let structure_result := validateDataStructure chart_data chart_type
  if !structure_result.is_valid then structure_result
  else
    let type_result := validateDataTypes chart_data chart_type
    if !type_result.is_valid then type_result
    else
      let quality_result := validateDataQuality chart_data chart_type
      if !quality_result.is_valid then quality_result
      else
        let chart_result := validateChartSpecific chart_data chart_type
        if !chart_result.is_valid then chart_result
        else
          let semantic_result :=
            validateDataSemantics orc chart_data chart_type original_answer original_question
          if !semantic_result.is_valid then semantic_result
          else completeGraphIterationResult chart_data chart_type iteration

/-- Embeds `float` conversion of a whole list as the comprehension
`[float(v) for v in values]` does: `none` when any element raises. -/
def allFloats : List JVal → Option (List ℚ)
  | [] => some []
  | v :: t =>
    match jvalFloat v, allFloats t with
    | some q, some qs => some (q :: qs)
    | _, _ => none

/-- Embeds `GraphDataValidationAgent._apply_programmatic_fixes`: the three
deterministic repairs keyed on the error message, returning the fixed dict
only when it differs from the input. -/
def applyProgrammaticFixes (chart_data : ChartData) (chart_type error_message : String) :
    Option ChartData :=
  let low := lowerStr error_message
  -- fix empty or null values
  let fixed1 :=
    if (pyContains low "missing" || pyContains low "empty")
        && (chart_type == "bar" || chart_type == "pie") && dictContains chart_data "values" then
      let values := jvalElems (dictGetD chart_data "values" (.list []))
      let labels := jvalElems (dictGetD chart_data "labels" (.list []))
      let valid_indices := (List.range values.length).filter
        (fun i => values.getD i .null ≠ .null ∧ values.getD i .null ≠ .s "")
      if !valid_indices.isEmpty then
        let f := dictSet chart_data "values" (.list (valid_indices.map (fun i => values.getD i .null)))
        if !labels.isEmpty && labels.length > valid_indices.foldl max 0 then
          dictSet f "labels" (.list (valid_indices.map (fun i => labels.getD i .null)))
        else f
      else chart_data
    else chart_data
  -- fix type issues
  let fixed2 :=
    if pyContains low "type" && dictContains fixed1 "values" then
      let values := jvalElems (dictGetD fixed1 "values" (.list []))
      match allFloats (values.filter (fun v => v ≠ .null)) with
      | some qs => dictSet fixed1 "values" (.list (qs.map .num))
      | none => fixed1
    else fixed1
  -- fix length mismatches
  let fixed3 :=
    if pyContains low "length mismatch"
        && (chart_type == "bar" || chart_type == "pie" || chart_type == "line") then
      let values := jvalElems (dictGetD fixed2 "values" (.list []))
      let other_field := if chart_type == "bar" || chart_type == "pie" then "labels" else "dates"
      let other_data := jvalElems (dictGetD fixed2 other_field (.list []))
      let min_length := min values.length other_data.length
      if min_length > 0 then
        dictSet (dictSet fixed2 "values" (.list (values.take min_length)))
          other_field (.list (other_data.take min_length))
      else fixed2
    else fixed2
  if fixed3 ≠ chart_data then some fixed3 else none

/-- The LLM re-extraction tail of `_generate_data_improvement`: the
`llm.ainvoke` call, the JSON parsing of its reply, and the
`VisualizationProcessor.extract_chart_data` fallback — all external to the
engine (LLM behaviour and free-text parsing), modelled as one function that
may return a replacement dict or nothing (`None`, also covering a raised
exception). -/
def Reextract : Type :=
  ChartData → String → Option String → String → String → Nat → Option ChartData

/-- Embeds `GraphDataValidationAgent._generate_data_improvement`: programmatic fixes
first, then the LLM re-extraction.  When `error_message` is `None` the
source's `error_message.lower()` raises `AttributeError`, which the
enclosing `try` turns into `None`. -/
def generateDataImprovement (rx : Reextract) (chart_data : ChartData)
    (chart_type : String) (error_message : Option String)
    (original_answer original_question : String) (iteration : Nat) : Option ChartData :=
  match error_message with
  | none => none
  | some msg =>
    match applyProgrammaticFixes chart_data chart_type msg with
    | some fixed => some fixed
    | none => rx chart_data chart_type (some msg) original_answer original_question iteration

/-- The failure report built after the loop of
`validate_graph_data_iteratively` (iteration exhaustion or the
no-improvement `break`): as in the SQL loop, `iterations` is
`self.max_iterations`. -/
def graphFailReport (original_data current_data : ChartData) (chart_type : String)
    (results : List GraphValidationResult) : GraphValidationReport :=
  { original_data := original_data, final_data := current_data, chart_type := chart_type,
    iterations := maxIterations, validation_results := results, success := false,
    data_points := countDataPoints current_data chart_type,
    final_error :=
      match results.getLast? with
      | none => some "Unknown validation error"
      | some r => r.error_message }

/-- The iteration loop of `validate_graph_data_iteratively`, fuel-indexed by
the remaining iterations. -/
def graphLoopGo (orc : GraphSemOracle) (rx : Reextract)
    (chart_type original_answer original_question : String) (original_data : ChartData) :
    Nat → Nat → ChartData → List GraphValidationResult → GraphValidationReport
  | 0, _, current_data, results => graphFailReport original_data current_data chart_type results
  | rem + 1, iteration, current_data, results =>
    let vr := validateGraphSingleIteration orc current_data chart_type
      original_answer original_question iteration
    let results := results ++ [vr]
    if vr.is_valid then
      { original_data := original_data, final_data := current_data, chart_type := chart_type,
        iterations := iteration, validation_results := results, success := true,
        data_points := countDataPoints current_data chart_type }
    else
      match vr.suggested_fix with
      | some fix =>
        graphLoopGo orc rx chart_type original_answer original_question original_data
          rem (iteration + 1) fix results
      | none =>
        match generateDataImprovement rx current_data chart_type vr.error_message
          original_answer original_question iteration with
        | some improved =>
          if improved ≠ current_data then
            graphLoopGo orc rx chart_type original_answer original_question original_data
              rem (iteration + 1) improved results
          else graphFailReport original_data current_data chart_type results
        | none => graphFailReport original_data current_data chart_type results

/-- Embeds `GraphDataValidationAgent.validate_graph_data_iteratively`
(`current_data = chart_data.copy()` is value equality here). -/
def validateGraphDataIteratively (orc : GraphSemOracle) (rx : Reextract)
    (chart_data : ChartData) (chart_type original_answer original_question : String) :
    GraphValidationReport :=
  graphLoopGo orc rx chart_type original_answer original_question chart_data
    maxIterations 1 chart_data []

/-! ## Pipeline engine

`pipeline/base_step.py` (`StepStatus`, `StepResult`),
`agents/pipeline/pipeline_agent.py` (`_build_dependency_graph`,
`_execute_parallel_pipeline`, `_execute_step_with_retry`,
`_build_final_result`) and `pipeline/pipeline_service.py`
(`PipelineService.execute`).

The data bag (`current_data`) is a Python dict; its values are opaque to the
engine, so the embedding is generic in a value type `V`.  A step's effective
behaviour is a function of the input bag: `BaseStep.run` catches every
exception and always returns a `StepResult`, so a total function is
faithful.  `asyncio.gather` hands every task of a batch the same
`current_data` snapshot and the source merges the results in the ready
list's order, which is what `schedulerGo` does. -/

/-- Embeds `StepStatus` from `base_step.py`. -/
inductive StepStatus where
  | pending
  | running
  | success
  | failed
  | skipped
deriving DecidableEq, Repr

/-- The data bag: a Python dict (insertion-ordered, unique keys). -/
abbrev Bag (V : Type) : Type := List (String × V)

/-- Embeds `StepResult` from `base_step.py` (minus the wall-clock
`execution_time`/`timestamp` fields). -/
structure StepResult (V : Type) where
  step_name : String
  status : StepStatus
  data : Bag V
  error : Option String := none

/-- Embeds `d[k] = v` on a bag. -/
def bagInsert {V : Type} (b : Bag V) (k : String) (v : V) : Bag V :=
  if b.any (fun p => p.1 == k) then b.map (fun p => if p.1 == k then (k, v) else p)
  else b ++ [(k, v)]

/-- Embeds `current_data.update(fragment)`: item-by-item insertion in the
fragment's order. -/
def bagUpdate {V : Type} (b fragment : Bag V) : Bag V :=
  fragment.foldl (fun acc p => bagInsert acc p.1 p.2) b

/-- The keys of a bag. -/
def bagKeys {V : Type} (b : Bag V) : List String := b.map (·.1)

/-- A pipeline step as the scheduler sees it: its name, its declared
`get_required_inputs()` / `get_output_keys()`, and its effective behaviour
`run` — `_execute_step_with_retry(step, data)` for the scheduler,
`step.run(data)` for the sequential service — as a function of the input
bag. -/
structure MStep (V : Type) where
  name : String
  required_inputs : List String
  output_keys : List String
  run : Bag V → StepResult V

/-- Embeds `PipelineAgent._build_dependency_graph`, read off for one step: the
names of the other steps whose `output_keys` meet this step's
`required_inputs`, in declaration order. -/
def stepDeps {V : Type} (steps : List (MStep V)) (step : MStep V) : List String :=
  (steps.filter (fun other => other.name ≠ step.name
    && step.required_inputs.any (fun inp => other.output_keys.contains inp))).map (·.name)

/-- Embeds `executed_steps.add(name)` on the set of executed step names (modelled
as a duplicate-free list; only membership and size are consumed). -/
def setInsert (ex : List String) (n : String) : List String :=
  if ex.contains n then ex else ex ++ [n]

/-- The ready set: steps not yet executed whose dependencies have all been
executed. -/
def readySteps {V : Type} (steps : List (MStep V)) (ex : List String) : List (MStep V) :=
  steps.filter (fun step => !ex.contains step.name
    && (stepDeps steps step).all (fun dep => ex.contains dep))

/-- The `while len(executed_steps) < len(steps)` loop of
`PipelineAgent._execute_parallel_pipeline`, fuel-indexed.  `none` marks fuel
exhaustion; `executeParallelPipeline` supplies fuel `steps.length + 1`,
which `schedulerGo_isSome` below proves sufficient — the Python loop
terminates.  An empty ready set means `break` (the source only logs the
detected cycle).  A batch of two or more runs every member against the same
input bag and merges results in the batch's order. -/
def schedulerGo {V : Type} (steps : List (MStep V)) :
    Nat → List String → List (StepResult V) → Bag V →
    Option (List (StepResult V) × Bag V)
  | 0, _, _, _ => none
  | fuel + 1, ex, results, bag =>
    if ex.length < steps.length then
      match readySteps steps ex with
      | [] => some (results, bag)
      | [step] =>
        let r := step.run bag
        schedulerGo steps fuel (setInsert ex step.name) (results ++ [r])
          (if r.status == .success then bagUpdate bag r.data else bag)
      | ready =>
        let outs := ready.map (fun step => (step.name, step.run bag))
        schedulerGo steps fuel
          (outs.foldl (fun e p => setInsert e p.1) ex)
          (results ++ outs.map (·.2))
          (outs.foldl (fun b p => if p.2.status == .success then bagUpdate b p.2.data else b) bag)
    else some (results, bag)

/-- Embeds `PipelineAgent._execute_parallel_pipeline` (started on a copy of the
initial data, executed-set and result list empty). -/
def executeParallelPipeline {V : Type} (steps : List (MStep V)) (initial : Bag V) :
    Option (List (StepResult V) × Bag V) :=
  schedulerGo steps (steps.length + 1) [] [] initial

/-- The status/error aggregation of `PipelineAgent._build_final_result`
(lines deciding `status` and `error` from the step results). -/
def buildFinalResultStatus {V : Type} (results : List (StepResult V)) : String × Option String :=
  if results.isEmpty then ("error", some "No steps executed")
  else if results.any (fun r => r.status == .failed) then
    ("failed", some "One or more steps failed")
  else ("success", none)

/-! ### Retry wrapper (`_execute_step_with_retry`) -/

/-- What one attempt of `step.run(...)` under `asyncio.wait_for` can do:
return a `StepResult`, hit the per-attempt timeout, or raise. -/
inductive AttemptOutcome (V : Type) where
  | result (r : StepResult V)
  | timeout
  | raised (msg : String)

/-- Is the attempt a failed one (a `FAILED` result, a timeout, or an
exception)? -/
def attemptFails {V : Type} : AttemptOutcome V → Bool
  | .result r => r.status == .failed
  | .timeout => true
  | .raised _ => true

/-- Is the attempt a result-shaped failure (`result.status == FAILED`), the
only attempt shape after which the source sleeps before retrying? -/
def attemptFailedResult {V : Type} : AttemptOutcome V → Bool
  | .result r => r.status == .failed
  | _ => false

/-- The `last_error` recorded by attempt number `i` (0-based) of the retry
loop. -/
def attemptError {V : Type} (timeoutS : Nat) : AttemptOutcome V → Option String
  | .result r => r.error
  | .timeout => some ("Step timeout after " ++ toString timeoutS ++ "s")
  | .raised msg => some msg

/-- The all-attempts-failed `StepResult` built after the loop of
`_execute_step_with_retry`. -/
def retryFailResult {V : Type} (maxRetries : Nat) (stepName : String) (input : Bag V)
    (lastError : Option String) : StepResult V :=
  { step_name := stepName, status := .failed, data := input,
    error := some ("Failed after " ++ toString (maxRetries + 1) ++ " attempts: "
      ++ pyOptStr lastError) }

/-- The `for attempt in range(max_retries + 1)` loop of
`_execute_step_with_retry`.  `behavior i` is what attempt `i` does; `rem` is
the number of attempts still allowed (structurally decreasing), `i` the
0-based attempt number (`executeStepWithRetry` keeps `i + rem =
maxRetries + 1`, making `i < maxRetries` the source's sleep condition).
Returns the outcome, the list of backoff delays (`2 ** attempt` time units)
in the order slept, and the number of attempts made. -/
def retryGo {V : Type} (behavior : Nat → AttemptOutcome V) (maxRetries timeoutS : Nat)
    (stepName : String) (input : Bag V) :
    Nat → Nat → Option String → StepResult V × List Nat × Nat
  | 0, _, lastError => (retryFailResult maxRetries stepName input lastError, [], 0)
  | rem + 1, i, _lastError =>
    match behavior i with
    | .result r =>
      if r.status == .failed then
        let rest := retryGo behavior maxRetries timeoutS stepName input rem (i + 1) r.error
        (rest.1, (if i < maxRetries then [2 ^ i] else []) ++ rest.2.1, rest.2.2 + 1)
    else (r, [], 1)
    | .timeout =>
      let rest := retryGo behavior maxRetries timeoutS stepName input rem (i + 1)
        (some ("Step timeout after " ++ toString timeoutS ++ "s"))
      (rest.1, rest.2.1, rest.2.2 + 1)
    | .raised msg =>
      let rest := retryGo behavior maxRetries timeoutS stepName input rem (i + 1) (some msg)
      (rest.1, rest.2.1, rest.2.2 + 1)

/-- Embeds `PipelineAgent._execute_step_with_retry` with the step's per-attempt
behaviour made explicit.  `self.config.max_retries` defaults to 2,
`getattr(step, 'timeout', 30)` to 30. -/
def executeStepWithRetry {V : Type} (behavior : Nat → AttemptOutcome V)
    (maxRetries timeoutS : Nat) (stepName : String) (input : Bag V) :
    StepResult V × List Nat × Nat :=
  retryGo behavior maxRetries timeoutS stepName input (maxRetries + 1) 0 none

/-! ### Sequential service (`pipeline_service.py`) -/

/-- Embeds `PipelineResult` from `pipeline_service.py` (minus the wall-clock
fields). -/
structure PipelineResult (V : Type) where
  success : Bool
  data : Bag V
  step_results : List (StepResult V)
  error : Option String := none

/-- The step loop of `PipelineService.execute`: merge on `SUCCESS`, skip on
`SKIPPED`, stop the whole run on `FAILED`; any other status falls through
the `elif` chain and the loop continues without merging. -/
def pipelineServiceGo {V : Type} :
    List (MStep V) → List (StepResult V) → Bag V → PipelineResult V
  | [], results, bag => { success := true, data := bag, step_results := results }
  | step :: rest, results, bag =>
    let r := step.run bag
    if r.status == .success then pipelineServiceGo rest (results ++ [r]) (bagUpdate bag r.data)
    else if r.status == .skipped then pipelineServiceGo rest (results ++ [r]) bag
    else if r.status == .failed then
      { success := false, data := bag, step_results := results ++ [r],
        error := some ("Pipeline failed at step '" ++ step.name ++ "': " ++ pyOptStr r.error) }
    else pipelineServiceGo rest (results ++ [r]) bag

/-- Embeds `PipelineService.execute` (run on a copy of the input data). -/
def pipelineServiceExecute {V : Type} (steps : List (MStep V)) (input : Bag V) :
    PipelineResult V :=
  pipelineServiceGo steps [] input

/-! ## Derived characterisations used in theorem statements -/

/-- Fail-fast combinator for graph results (the analogue of
`firstFailing`). -/
def firstFailingGraph (dflt : GraphValidationResult) :
    List GraphValidationResult → GraphValidationResult
  | [] => dflt
  | r :: t => if r.is_valid then firstFailingGraph dflt t else r

/-- The backoff delays the retry loop emits from attempt `i` on with `rem`
attempts remaining: `2 ^ j` for every attempt `j` that ends in a
`FAILED`-status result and is followed by another attempt
(`j < maxRetries`). -/
def expectedDelays {V : Type} (behavior : Nat → AttemptOutcome V) (maxRetries : Nat) :
    Nat → Nat → List Nat
  | 0, _ => []
  | rem + 1, i =>
    (if attemptFailedResult (behavior i) && decide (i < maxRetries) then [2 ^ i] else [])
      ++ expectedDelays behavior maxRetries rem (i + 1)

/-! ## Concrete fixtures for counterexamples and witnesses -/

/-- Concrete settings (the environment supplies the real values; the claims
hold or fail uniformly in them). -/
def st0 : Settings := ⟨"proj", "ds"⟩

/-- A warehouse whose dry runs always succeed. -/
def wh0 : Warehouse := fun _ => .ok ()

/-- A semantic oracle answering `VALID`. -/
def orcValid : SemOracle := fun _ _ => .ok "VALID"

/-- A semantic oracle answering `INVALID: wrong`. -/
def orcInvalidWrong : SemOracle := fun _ _ => .ok "INVALID: wrong"

/-- A semantic oracle whose call raises. -/
def orcErr : SemOracle := fun _ _ => .error ()

/-- A repair oracle whose call raises (no improvement is ever produced). -/
def roErr : RepairOracle := fun _ _ _ _ => .error ()

/-- A query that passes the syntax, dialect and execution checks, fails the
performance check (`SELECT *`, no `LIMIT`), and which `orcInvalidWrong`
declares semantically invalid. -/
def cexOrderQuery : String := "SELECT * FROM proj.ds.cost_analysis"

/-- A query that is valid for every check except that its original form
carries surrounding whitespace. -/
def wsQuery : String := " SELECT cost FROM proj.ds.cost_analysis LIMIT 5"

/-- 75 distinct bar-chart labels. -/
def labels75 : List JVal := (List.range 75).map (fun i => .s ("L" ++ toString i))

/-- 75 distinct bar-chart values. -/
def values75 : List JVal := (List.range 75).map (fun i => .num i)

/-- A bar payload with `labels`/`values` of length 75 violating only the
50-point maximum. -/
def payload75 : ChartData := [("labels", .list labels75), ("values", .list values75)]

/-- A graph semantic oracle answering `VALID`. -/
def gOrcValid : GraphSemOracle := fun _ _ _ _ => .ok "VALID"

/-- A graph semantic oracle answering `INVALID: no`. -/
def gOrcInvalid : GraphSemOracle := fun _ _ _ _ => .ok "INVALID: no"

/-- A graph semantic oracle whose call raises. -/
def gOrcErr : GraphSemOracle := fun _ _ _ _ => .error ()

/-- An LLM re-extraction that never yields data. -/
def rxNone : Reextract := fun _ _ _ _ _ _ => none

/-- A dependency-free step producing key `c`. -/
def stepLoad : MStep String := ⟨"load", [], ["c"], fun _ => ⟨"load", .success, [("c", "v")], none⟩⟩

/-- A step requiring `b` and producing `a` — one half of a cycle. -/
def stepA : MStep String := ⟨"a", ["b"], ["a"], fun _ => ⟨"a", .success, [("a", "v")], none⟩⟩

/-- A step requiring `a` and producing `b` — the other half of the cycle. -/
def stepB : MStep String := ⟨"b", ["a"], ["b"], fun _ => ⟨"b", .success, [("b", "v")], none⟩⟩

/-- A dependency-free step that always fails. -/
def stepFail : MStep String := ⟨"a", [], ["x"], fun _ => ⟨"a", .failed, [], some "boom"⟩⟩

/-- A step depending on `stepFail`'s declared output and succeeding. -/
def stepAfter : MStep String := ⟨"b", ["x"], ["y"], fun _ => ⟨"b", .success, [("y", "v")], none⟩⟩

/-- A step attempt behaviour that always raises. -/
def behRaise : Nat → AttemptOutcome String := fun _ => .raised "boom"

/-- A step attempt behaviour that always returns a `FAILED` result with
error `boom`. -/
def behFail : Nat → AttemptOutcome String := fun _ => .result ⟨"s", .failed, [], some "boom"⟩

/-! # Theorems -/

/- The Batteries `Rat` arithmetic operations are `@[irreducible]`, which
blocks `decide`/`rfl` evaluation of the embedded validators on concrete
inputs; they are restored to normal unfolding locally (this affects only
elaboration in this file — the kernel ignores reducibility either way). -/
attribute [local semireducible] Rat.add Rat.mul Rat.inv Rat.sub

/-- Claim C1, counterexample: the SQL iteration does not run its checks in
the spec's order.  With an all-accepting warehouse and an oracle that
answers `INVALID: wrong`, the query `SELECT * FROM proj.ds.cost_analysis`
fails both the semantic and the performance check; the source returns the
semantic finding, while the spec's order (performance before execution
before semantic-last) would return the performance finding — the two
iteration functions disagree. -/
theorem sql_iteration_order_cex :
    (validateSingleIteration st0 wh0 orcInvalidWrong cexOrderQuery "qq" 1).validation_type
      = "semantic" ∧
    (validateSingleIterationSpecOrder st0 wh0 orcInvalidWrong cexOrderQuery "qq" 1).validation_type
      = "performance" ∧
    validateSingleIteration st0 wh0 orcInvalidWrong cexOrderQuery "qq" 1 ≠
      validateSingleIterationSpecOrder st0 wh0 orcInvalidWrong cexOrderQuery "qq" 1 := by
  refine ⟨rfl, rfl, ?_⟩
  decide

/-- Claim C1 (amended): each SQL validation iteration runs its checks
fail-fast in the fixed source order syntax (structural) → BigQuery-specific
(domain/dialect) → semantic → execution dry-run → performance: the
iteration's result is the first failing check's finding — checks after the
first failure do not influence the result — and the all-pass finding
otherwise.  (The spec's claimed order, with semantic last, is refuted by
`sql_iteration_order_cex`.) -/
theorem sql_iteration_first_failing (st : Settings) (wh : Warehouse) (orc : SemOracle)
    (q question : String) (iteration : Nat) :
    validateSingleIteration st wh orc q question iteration =
      firstFailing (completeIterationResult iteration)
        [validateSyntaxCheck st q, validateBigQuerySpecifics st q,
         validateSemantics orc q question, validateExecution st wh q,
         validatePerformance q] := by
  simp only [validateSingleIteration, firstFailing]
  cases h1 : (validateSyntaxCheck st q).is_valid <;>
    cases h2 : (validateBigQuerySpecifics st q).is_valid <;>
      cases h3 : (validateSemantics orc q question).is_valid <;>
        cases h4 : (validateExecution st wh q).is_valid <;>
          cases h5 : (validatePerformance q).is_valid <;>
            simp [h1, h2, h3, h4, h5]

/-- Inserting a name never shrinks the executed set. -/
theorem setInsert_length_le (ex : List String) (n : String) :
    ex.length ≤ (setInsert ex n).length := by
  unfold setInsert
  split <;> simp

/-- Inserting a fresh name grows the executed set by one. -/
theorem setInsert_length_new (ex : List String) (n : String) (h : ex.contains n = false) :
    (setInsert ex n).length = ex.length + 1 := by
  unfold setInsert
  rw [h]
  simp

/-- Folding insertions never shrinks the executed set. -/
theorem foldl_setInsert_length_le {α : Type} (l : List (String × α)) :
    ∀ ex : List String, ex.length ≤ (l.foldl (fun e p => setInsert e p.1) ex).length := by
  induction l with
  | nil => intro ex; simp
  | cons p t ih =>
    intro ex
    calc ex.length ≤ (setInsert ex p.1).length := setInsert_length_le ex p.1
    _ ≤ _ := ih (setInsert ex p.1)

/-- Every member of the ready set is not yet executed. -/
theorem readySteps_not_executed {V : Type} {steps : List (MStep V)} {ex : List String}
    {step : MStep V} (h : step ∈ readySteps steps ex) : ex.contains step.name = false := by
  unfold readySteps at h
  have := (List.mem_filter.mp h).2
  simp only [Bool.and_eq_true, Bool.not_eq_true'] at this
  exact this.1

/-- Each pass of the scheduler loop with a nonempty ready set strictly grows
the executed set, so any fuel exceeding the number of unexecuted steps is
enough: the `while` loop of `_execute_parallel_pipeline` terminates. -/
theorem schedulerGo_isSome {V : Type} (steps : List (MStep V)) :
    ∀ (fuel : Nat) (ex : List String) (res : List (StepResult V)) (bag : Bag V),
      steps.length - ex.length < fuel → (schedulerGo steps fuel ex res bag).isSome = true := by
  intro fuel
  induction fuel with
  | zero => intro ex res bag h; omega
  | succ f ih =>
    intro ex res bag h
    rw [schedulerGo]
    by_cases hlen : ex.length < steps.length
    · simp only [hlen, if_true]
      rcases hr : readySteps steps ex with _ | ⟨s1, t1⟩
      · simp
      · rcases t1 with _ | ⟨s2, t2⟩
        · have hs1 : ex.contains s1.name = false :=
            readySteps_not_executed (by rw [hr]; exact List.mem_cons_self s1 [])
          apply ih
          rw [setInsert_length_new ex s1.name hs1]
          omega
        · have hs1 : ex.contains s1.name = false :=
            readySteps_not_executed (by rw [hr]; exact List.mem_cons_self s1 (s2 :: t2))
          apply ih
          have hgrow : ex.length + 1 ≤
              (((s1 :: s2 :: t2).map (fun step => (step.name, step.run bag))).foldl
                (fun e p => setInsert e p.1) ex).length := by
            simp only [List.map_cons, List.foldl_cons]
            calc ex.length + 1 = (setInsert ex s1.name).length :=
                  (setInsert_length_new ex s1.name hs1).symm
            _ ≤ _ := foldl_setInsert_length_le
                  ((s2 :: t2).map (fun step => (step.name, step.run bag)))
                  (setInsert ex s1.name)
          omega
    · simp [hlen]

/-- The scheduler's answer does not depend on the fuel, once the fuel
exceeds the number of unexecuted steps: the loop's result is well defined
and reached in finitely many passes. -/
theorem schedulerGo_fuel_irrelevant {V : Type} (steps : List (MStep V)) :
    ∀ (f1 f2 : Nat) (ex : List String) (res : List (StepResult V)) (bag : Bag V),
      steps.length - ex.length < f1 → steps.length - ex.length < f2 →
      schedulerGo steps f1 ex res bag = schedulerGo steps f2 ex res bag := by
  intro f1
  induction f1 with
  | zero => intro f2 ex res bag h1 _; omega
  | succ f ih =>
    intro f2 ex res bag h1 h2
    cases f2 with
    | zero => omega
    | succ g =>
      rw [schedulerGo, schedulerGo]
      by_cases hlen : ex.length < steps.length
      · simp only [hlen, if_true]
        rcases hr : readySteps steps ex with _ | ⟨s1, t1⟩
        · rfl
        · rcases t1 with _ | ⟨s2, t2⟩
          · have hs1 : ex.contains s1.name = false :=
              readySteps_not_executed (by rw [hr]; exact List.mem_cons_self s1 [])
            apply ih
            · rw [setInsert_length_new ex s1.name hs1]; omega
            · rw [setInsert_length_new ex s1.name hs1]; omega
          · have hs1 : ex.contains s1.name = false :=
              readySteps_not_executed (by rw [hr]; exact List.mem_cons_self s1 (s2 :: t2))
            have hgrow : ex.length + 1 ≤
                (((s1 :: s2 :: t2).map (fun step => (step.name, step.run bag))).foldl
                  (fun e p => setInsert e p.1) ex).length := by
              simp only [List.map_cons, List.foldl_cons]
              calc ex.length + 1 = (setInsert ex s1.name).length :=
                    (setInsert_length_new ex s1.name hs1).symm
              _ ≤ _ := foldl_setInsert_length_le
                    ((s2 :: t2).map (fun step => (step.name, step.run bag)))
                    (setInsert ex s1.name)
            apply ih <;> omega
      · simp [hlen]

/-- Claim C2, counterexample: a cyclic step set does not end with a
`DependencyCycle` error in the run's result.  With `stepLoad` plus the
two-step cycle `stepA`/`stepB`, the scheduler runs `stepLoad`, detects the
empty ready set and breaks; `_build_final_result` then reports overall
status `success` with no error at all (only one of three steps ever ran).
With the bare cycle, the result is status `error` with
`No steps executed` — in neither case a `DependencyCycle` error. -/
theorem scheduler_cycle_cex :
    (executeParallelPipeline [stepLoad, stepA, stepB] ([] : Bag String)).map
        (fun p => (buildFinalResultStatus p.1, p.1.length)) = some (("success", none), 1) ∧
    (executeParallelPipeline [stepA, stepB] ([] : Bag String)).map
        (fun p => (buildFinalResultStatus p.1, p.1.length))
      = some (("error", some "No steps executed"), 0) := by
  exact ⟨rfl, rfl⟩

/-- Claim C2 (amended): for every step set — cyclic ones included — the
scheduler terminates in finite time: the loop's fuel-indexed unfolding
stabilises at `steps.length + 1` passes and yields a result (never a hang).
No `DependencyCycle` error is reported, however: on a cycle the loop just
breaks, and the run's status/error are computed from the executed step
results alone (`scheduler_cycle_cex`: possibly even `success`). -/
theorem scheduler_terminates {V : Type} (steps : List (MStep V)) (bag : Bag V) (extra : Nat) :
    (executeParallelPipeline steps bag).isSome = true ∧
    schedulerGo steps (steps.length + 1 + extra) [] [] bag = executeParallelPipeline steps bag := by
  constructor
  · exact schedulerGo_isSome steps (steps.length + 1) [] [] bag (by simp)
  · exact schedulerGo_fuel_irrelevant steps (steps.length + 1 + extra) (steps.length + 1)
      [] [] bag (by simp; omega) (by simp)

/-- Claim C3, counterexample: in the dependency scheduler a step dispatched
alone that fails does not stop the run.  `stepFail` (no dependencies,
always fails) is dispatched alone and fails; `stepAfter`, which depends on
its declared output, is dispatched next — failed steps still count as
executed for readiness — and succeeds.  The run returns both outcomes, so
it did not stop at the failure; only the aggregated status is `failed`. -/
theorem scheduler_failed_step_continues_cex :
    (executeParallelPipeline [stepFail, stepAfter] ([] : Bag String)).map
        (fun p => (p.1.map (fun r => (r.step_name, r.status == StepStatus.success)),
          buildFinalResultStatus p.1, bagKeys p.2))
      = some ([("a", false), ("b", true)], ("failed", some "One or more steps failed"), ["y"]) := by
  exact rfl

/-- Claim C3 (amended): it is the *sequential* executor,
`PipelineService.execute`, that stops the whole run at a failed step: the
result is sealed with `success = false`, the step outcomes gathered so far
(the failing one included), the error naming the failing step, and the data
bag exactly as accumulated before the failure (every key produced by
earlier steps retained).  Steps after the failing one never run.  The
dependency scheduler, by contrast, continues past a failed single-dispatched
step (`scheduler_failed_step_continues_cex`). -/
theorem service_stops_on_failure {V : Type} (step : MStep V) (rest : List (MStep V))
    (results : List (StepResult V)) (bag : Bag V) (h : (step.run bag).status = .failed) :
    pipelineServiceGo (step :: rest) results bag =
      { success := false, data := bag, step_results := results ++ [step.run bag],
        error := some ("Pipeline failed at step '" ++ step.name ++ "': "
          ++ pyOptStr (step.run bag).error) } := by
  rw [pipelineServiceGo]
  simp [h]

/-- Claim C3 witness: `service_stops_on_failure` applied to the concrete
always-failing step ahead of a successful one. -/
theorem service_stops_on_failure_witness :
    pipelineServiceGo [stepFail, stepAfter] [] ([("c", "v")] : Bag String) =
      { success := false, data := [("c", "v")],
        step_results := [⟨"a", .failed, [], some "boom"⟩],
        error := some "Pipeline failed at step 'a': boom" } := by
  rw [service_stops_on_failure stepFail [stepAfter] [] [("c", "v")] rfl]
  rfl

/-- Master lemma for the retry loop on an always-failing behaviour: with
`rem + 1` attempts allowed from attempt `i`, every attempt is made
(`rem + 1` of them), the final outcome is the failure result carrying the
last attempt's error, and the emitted delays are `expectedDelays`. -/
theorem retryGo_all_fail {V : Type} (behavior : Nat → AttemptOutcome V)
    (maxRetries timeoutS : Nat) (stepName : String) (input : Bag V)
    (hfail : ∀ j, attemptFails (behavior j) = true) :
    ∀ (rem i : Nat) (lastError : Option String),
      retryGo behavior maxRetries timeoutS stepName input (rem + 1) i lastError =
        (retryFailResult maxRetries stepName input (attemptError timeoutS (behavior (i + rem))),
         expectedDelays behavior maxRetries (rem + 1) i, rem + 1) := by
  intro rem
  induction rem with
  | zero =>
    intro i lastError
    cases hb : behavior i with
    | result r =>
      have hr : (r.status == StepStatus.failed) = true := by
        have := hfail i; rw [hb] at this; exact this
      simp [retryGo, hb, hr, expectedDelays, attemptError, attemptFailedResult]
    | timeout =>
      simp [retryGo, hb, expectedDelays, attemptError, attemptFailedResult]
    | raised msg =>
      simp [retryGo, hb, expectedDelays, attemptError, attemptFailedResult]
  | succ n ih =>
    intro i lastError
    cases hb : behavior i with
    | result r =>
      have hr : (r.status == StepStatus.failed) = true := by
        have := hfail i; rw [hb] at this; exact this
      have harith : i + 1 + n = i + (n + 1) := by omega
      rw [retryGo, hb]
      dsimp only
      simp only [hr, if_true]
      rw [ih (i + 1) r.error]
      simp [expectedDelays, attemptFailedResult, hb, hr, harith]
    | timeout =>
      have harith : i + 1 + n = i + (n + 1) := by omega
      rw [retryGo, hb]
      dsimp only
      rw [ih (i + 1) (some ("Step timeout after " ++ toString timeoutS ++ "s"))]
      simp [expectedDelays, attemptFailedResult, hb, harith]
    | raised msg =>
      have harith : i + 1 + n = i + (n + 1) := by omega
      rw [retryGo, hb]
      dsimp only
      rw [ih (i + 1) (some msg)]
      simp [expectedDelays, attemptFailedResult, hb, harith]

/-- Closed form of `expectedDelays`: one delay `2 ^ j` for every attempt
number `j` in the window that is a `FAILED`-result attempt with a successor
attempt. -/
theorem expectedDelays_eq_filter {V : Type} (behavior : Nat → AttemptOutcome V)
    (maxRetries : Nat) :
    ∀ (rem i : Nat),
      expectedDelays behavior maxRetries rem i =
        ((List.range' i rem).filter
          (fun j => attemptFailedResult (behavior j) && decide (j < maxRetries))).map
          (fun j => 2 ^ j) := by
  intro rem
  induction rem with
  | zero => intro i; simp [expectedDelays]
  | succ n ih =>
    intro i
    rw [expectedDelays, List.range'_succ, List.filter_cons, ih (i + 1)]
    by_cases hc : (attemptFailedResult (behavior i) && decide (i < maxRetries)) = true
    · simp [hc]
    · simp only [Bool.not_eq_true] at hc
      simp [hc]

/-- Claim C5, counterexample: a step whose every attempt *raises* is
attempted 3 times with `maxRetries = 2`, but no backoff delay at all is
inserted — the claimed delays `1` before attempt 2 and `2` before attempt 3
do not happen (the source sleeps only after a `FAILED`-status result, not
after an exception or timeout). -/
theorem retry_raised_no_delays_cex :
    (executeStepWithRetry behRaise 2 30 "s" ([] : Bag String)).2.2 = 3 ∧
    (executeStepWithRetry behRaise 2 30 "s" ([] : Bag String)).2.1 = [] ∧
    (executeStepWithRetry behRaise 2 30 "s" ([] : Bag String)).2.1 ≠ [1, 2] := by
  exact ⟨rfl, rfl, by decide⟩

/-- Claim C5 (amended): a step whose every attempt fails is attempted
exactly `maxRetries + 1` times, and a delay of `2 ^ (k - 2)` units is
inserted before attempt `k` (`k ≥ 2`) exactly when attempt `k - 1` failed
*by returning a `FAILED` result*; attempts that end in a timeout or an
exception are retried immediately with no delay
(`retry_raised_no_delays_cex`).  In particular, with `maxRetries = 2` and
every attempt returning a failed result, the delays are `[1, 2]`. -/
theorem retry_attempts_and_delays {V : Type} (behavior : Nat → AttemptOutcome V)
    (maxRetries timeoutS : Nat) (stepName : String) (input : Bag V)
    (hfail : ∀ j, attemptFails (behavior j) = true) :
    (executeStepWithRetry behavior maxRetries timeoutS stepName input).2.2 = maxRetries + 1 ∧
    (executeStepWithRetry behavior maxRetries timeoutS stepName input).2.1 =
      ((List.range maxRetries).filter (fun j => attemptFailedResult (behavior j))).map
        (fun j => 2 ^ j) ∧
    (executeStepWithRetry behavior maxRetries timeoutS stepName input).1.status = .failed := by
  unfold executeStepWithRetry
  rw [retryGo_all_fail behavior maxRetries timeoutS stepName input hfail maxRetries 0 none]
  refine ⟨rfl, ?_, rfl⟩
  rw [expectedDelays_eq_filter behavior maxRetries (maxRetries + 1) 0]
  have hsplit : List.range' 0 (maxRetries + 1) = List.range' 0 maxRetries ++ [maxRetries] := by
    simpa using List.range'_1_concat 0 maxRetries
  rw [hsplit, List.filter_append]
  have hlast : List.filter
      (fun j => attemptFailedResult (behavior j) && decide (j < maxRetries)) [maxRetries] = [] := by
    simp
  rw [hlast, List.append_nil, ← List.range_eq_range']
  dsimp only
  congr 1
  apply List.filter_congr
  intro j hj
  have : j < maxRetries := List.mem_range.mp hj
  simp [this]

/-- Claim C5 witness: `retry_attempts_and_delays` at the always-`FAILED`
behaviour with `maxRetries = 2`: 3 attempts, delays `[1, 2]`. -/
theorem retry_attempts_and_delays_witness :
    (executeStepWithRetry behFail 2 30 "s" ([] : Bag String)).2.2 = 3 ∧
    (executeStepWithRetry behFail 2 30 "s" ([] : Bag String)).2.1 = [1, 2] := by
  have h := retry_attempts_and_delays behFail 2 30 "s" ([] : Bag String) (fun j => rfl)
  exact ⟨h.1, by rw [h.2.1]; rfl⟩

/-- Claim C6, counterexample: after all attempts fail with error `boom`,
the outcome's `error` is not `boom` itself but the wrapper string
`Failed after 3 attempts: boom`. -/
theorem retry_error_prefixed_cex :
    (executeStepWithRetry behFail 2 30 "s" ([] : Bag String)).1.error
      = some "Failed after 3 attempts: boom" ∧
    (executeStepWithRetry behFail 2 30 "s" ([] : Bag String)).1.error ≠ some "boom" := by
  exact ⟨rfl, by decide⟩

/-- Claim C6 (amended): when every attempt of a step fails, the returned
outcome's `error` is the string `Failed after {maxRetries + 1} attempts: `
followed by exactly the last attempt's error (and nothing from earlier
attempts); it is not the bare last error itself
(`retry_error_prefixed_cex`). -/
theorem retry_error_embeds_last {V : Type} (behavior : Nat → AttemptOutcome V)
    (maxRetries timeoutS : Nat) (stepName : String) (input : Bag V)
    (hfail : ∀ j, attemptFails (behavior j) = true) :
    (executeStepWithRetry behavior maxRetries timeoutS stepName input).1.error =
      some ("Failed after " ++ toString (maxRetries + 1) ++ " attempts: "
        ++ pyOptStr (attemptError timeoutS (behavior maxRetries))) := by
  unfold executeStepWithRetry
  rw [retryGo_all_fail behavior maxRetries timeoutS stepName input hfail maxRetries 0 none]
  simp [retryFailResult]

/-- Claim C6 witness: `retry_error_embeds_last` at the always-`FAILED`
behaviour (last error `boom`). -/
theorem retry_error_embeds_last_witness :
    (executeStepWithRetry behFail 2 30 "s" ([] : Bag String)).1.error
      = some "Failed after 3 attempts: boom" := by
  rw [retry_error_embeds_last behFail 2 30 "s" ([] : Bag String) (fun j => rfl)]
  rfl

/-- The SQL loop never reports more than `maxIterations` iterations (the
invariant `iter + rem = maxIterations + 1` holds from the top-level entry
on). -/
theorem sqlLoopGo_iterations_le (st : Settings) (wh : Warehouse) (orc : SemOracle)
    (ro : RepairOracle) (question origQ : String) :
    ∀ (rem iter : Nat) (cur : String) (res : List ValidationResult),
      iter + rem = maxIterations + 1 →
      (sqlLoopGo st wh orc ro question origQ rem iter cur res).iterations ≤ maxIterations := by
  intro rem
  induction rem with
  | zero => intro iter cur res _; simp [sqlLoopGo, sqlFailReport]
  | succ n ih =>
    intro iter cur res hinv
    rw [sqlLoopGo]
    split
    · dsimp only; omega
    · split
      · exact ih (iter + 1) _ _ (by omega)
      · split
        · split
          · exact ih (iter + 1) _ _ (by omega)
          · simp [sqlFailReport]
        · simp [sqlFailReport]

/-- A successful SQL loop run reports at least the iteration number it
started from, and when it reports exactly that number the final query is
the artifact the run started from. -/
theorem sqlLoopGo_success_shape (st : Settings) (wh : Warehouse) (orc : SemOracle)
    (ro : RepairOracle) (question origQ : String) :
    ∀ (rem iter : Nat) (cur : String) (res : List ValidationResult),
      (sqlLoopGo st wh orc ro question origQ rem iter cur res).success = true →
      iter ≤ (sqlLoopGo st wh orc ro question origQ rem iter cur res).iterations ∧
      ((sqlLoopGo st wh orc ro question origQ rem iter cur res).iterations = iter →
        (sqlLoopGo st wh orc ro question origQ rem iter cur res).final_query = cur) := by
  intro rem
  induction rem with
  | zero => intro iter cur res hs; simp [sqlLoopGo, sqlFailReport] at hs
  | succ n ih =>
    intro iter cur res
    rw [sqlLoopGo]
    split
    · intro _; exact ⟨le_refl iter, fun _ => rfl⟩
    · split
      · intro hs
        have h2 := ih (iter + 1) _ _ hs
        exact ⟨by omega, fun hit => by omega⟩
      · split
        · split
          · intro hs
            have h2 := ih (iter + 1) _ _ hs
            exact ⟨by omega, fun hit => by omega⟩
          · intro hs; simp [sqlFailReport] at hs
        · intro hs; simp [sqlFailReport] at hs

/-- Every unsuccessful SQL loop exit — iteration exhaustion and the
no-improvement break alike — reports `iterations = maxIterations`. -/
theorem sqlLoopGo_fail_iterations (st : Settings) (wh : Warehouse) (orc : SemOracle)
    (ro : RepairOracle) (question origQ : String) :
    ∀ (rem iter : Nat) (cur : String) (res : List ValidationResult),
      (sqlLoopGo st wh orc ro question origQ rem iter cur res).success = false →
      (sqlLoopGo st wh orc ro question origQ rem iter cur res).iterations = maxIterations := by
  intro rem
  induction rem with
  | zero => intro iter cur res _; simp [sqlLoopGo, sqlFailReport]
  | succ n ih =>
    intro iter cur res
    rw [sqlLoopGo]
    split
    · intro hs; simp at hs
    · split
      · exact ih (iter + 1) _ _
      · split
        · split
          · exact ih (iter + 1) _ _
          · intro _; simp [sqlFailReport]
        · intro _; simp [sqlFailReport]

/-- Graph-loop analogue of `sqlLoopGo_iterations_le`. -/
theorem graphLoopGo_iterations_le (orc : GraphSemOracle) (rx : Reextract)
    (ctype ans oq : String) (orig : ChartData) :
    ∀ (rem iter : Nat) (cur : ChartData) (res : List GraphValidationResult),
      iter + rem = maxIterations + 1 →
      (graphLoopGo orc rx ctype ans oq orig rem iter cur res).iterations ≤ maxIterations := by
  intro rem
  induction rem with
  | zero => intro iter cur res _; simp [graphLoopGo, graphFailReport]
  | succ n ih =>
    intro iter cur res hinv
    rw [graphLoopGo]
    split
    · dsimp only; omega
    · split
      · exact ih (iter + 1) _ _ (by omega)
      · split
        · split
          · exact ih (iter + 1) _ _ (by omega)
          · simp [graphFailReport]
        · simp [graphFailReport]

/-- Graph-loop analogue of `sqlLoopGo_success_shape`. -/
theorem graphLoopGo_success_shape (orc : GraphSemOracle) (rx : Reextract)
    (ctype ans oq : String) (orig : ChartData) :
    ∀ (rem iter : Nat) (cur : ChartData) (res : List GraphValidationResult),
      (graphLoopGo orc rx ctype ans oq orig rem iter cur res).success = true →
      iter ≤ (graphLoopGo orc rx ctype ans oq orig rem iter cur res).iterations ∧
      ((graphLoopGo orc rx ctype ans oq orig rem iter cur res).iterations = iter →
        (graphLoopGo orc rx ctype ans oq orig rem iter cur res).final_data = cur) := by
  intro rem
  induction rem with
  | zero => intro iter cur res hs; simp [graphLoopGo, graphFailReport] at hs
  | succ n ih =>
    intro iter cur res
    rw [graphLoopGo]
    split
    · intro _; exact ⟨le_refl iter, fun _ => rfl⟩
    · split
      · intro hs
        have h2 := ih (iter + 1) _ _ hs
        exact ⟨by omega, fun hit => by omega⟩
      · split
        · split
          · intro hs
            have h2 := ih (iter + 1) _ _ hs
            exact ⟨by omega, fun hit => by omega⟩
          · intro hs; simp [graphFailReport] at hs
        · intro hs; simp [graphFailReport] at hs

/-- Graph-loop analogue of `sqlLoopGo_fail_iterations`. -/
theorem graphLoopGo_fail_iterations (orc : GraphSemOracle) (rx : Reextract)
    (ctype ans oq : String) (orig : ChartData) :
    ∀ (rem iter : Nat) (cur : ChartData) (res : List GraphValidationResult),
      (graphLoopGo orc rx ctype ans oq orig rem iter cur res).success = false →
      (graphLoopGo orc rx ctype ans oq orig rem iter cur res).iterations = maxIterations := by
  intro rem
  induction rem with
  | zero => intro iter cur res _; simp [graphLoopGo, graphFailReport]
  | succ n ih =>
    intro iter cur res
    rw [graphLoopGo]
    split
    · intro hs; simp at hs
    · split
      · exact ih (iter + 1) _ _
      · split
        · split
          · exact ih (iter + 1) _ _
          · intro _; simp [graphFailReport]
        · intro _; simp [graphFailReport]

/-- Claim C4, counterexample: `finalArtifact == originalArtifact` is not
equivalent to `iterations == 1 and success`.  Both directions fail on the
SQL loop: (a) the query `\" SELECT cost FROM proj.ds.cost_analysis LIMIT 5\"`
succeeds at iteration 1, yet `final_query` (stripped once on entry) differs
from `original_query`; (b) `\"SELECT 1\"` fails its first check with no fix
and the repair oracle raises, so the loop breaks with `success = false` and
`iterations = 3` while `final_query = original_query`. -/
theorem report_iff_cex :
    (validateSqlIteratively st0 wh0 orcValid roErr wsQuery "qq").iterations = 1 ∧
    (validateSqlIteratively st0 wh0 orcValid roErr wsQuery "qq").success = true ∧
    (validateSqlIteratively st0 wh0 orcValid roErr wsQuery "qq").final_query ≠
      (validateSqlIteratively st0 wh0 orcValid roErr wsQuery "qq").original_query ∧
    (validateSqlIteratively st0 wh0 orcValid roErr "SELECT 1" "qq").final_query =
      (validateSqlIteratively st0 wh0 orcValid roErr "SELECT 1" "qq").original_query ∧
    (validateSqlIteratively st0 wh0 orcValid roErr "SELECT 1" "qq").success = false ∧
    (validateSqlIteratively st0 wh0 orcValid roErr "SELECT 1" "qq").iterations = 3 := by
  refine ⟨rfl, rfl, by decide, rfl, rfl, rfl⟩

/-- Claim C4 (amended): for every run of either validation loop,
`iterations ≤ maxIterations` holds; and if `iterations = 1` and the run
succeeded, the final artifact equals the artifact the loop started from —
the once-stripped query for the SQL loop, the chart data itself for the
chart loop.  The spec's biconditional fails in both directions
(`report_iff_cex`): stripping can change the artifact on a one-iteration
success, and a no-progress break can leave the artifact untouched on a
failed run. -/
theorem report_invariants (st : Settings) (wh : Warehouse) (orc : SemOracle)
    (ro : RepairOracle) (q question : String) (gorc : GraphSemOracle) (rx : Reextract)
    (cdata : ChartData) (ctype ans oq : String) :
    (validateSqlIteratively st wh orc ro q question).iterations ≤ maxIterations ∧
    ((validateSqlIteratively st wh orc ro q question).success = true →
      (validateSqlIteratively st wh orc ro q question).iterations = 1 →
      (validateSqlIteratively st wh orc ro q question).final_query = pyStrip q) ∧
    (validateGraphDataIteratively gorc rx cdata ctype ans oq).iterations ≤ maxIterations ∧
    ((validateGraphDataIteratively gorc rx cdata ctype ans oq).success = true →
      (validateGraphDataIteratively gorc rx cdata ctype ans oq).iterations = 1 →
      (validateGraphDataIteratively gorc rx cdata ctype ans oq).final_data = cdata) := by
  refine ⟨?_, ?_, ?_, ?_⟩
  · exact sqlLoopGo_iterations_le st wh orc ro question q maxIterations 1 (pyStrip q) [] rfl
  · intro hs h1
    exact (sqlLoopGo_success_shape st wh orc ro question q maxIterations 1
      (pyStrip q) [] hs).2 h1
  · exact graphLoopGo_iterations_le gorc rx ctype ans oq cdata maxIterations 1 cdata [] rfl
  · intro hs h1
    exact (graphLoopGo_success_shape gorc rx ctype ans oq cdata maxIterations 1
      cdata [] hs).2 h1

/-- Claim C4 witness: `report_invariants` at a one-iteration success (the
whitespace-padded valid query) and a trivially valid indicator payload. -/
theorem report_invariants_witness :
    (validateSqlIteratively st0 wh0 orcValid roErr wsQuery "qq").final_query = pyStrip wsQuery ∧
    (validateGraphDataIteratively gOrcValid rxNone [("value", .num 7)] "indicator" "a" "q").final_data
      = [("value", .num 7)] := by
  refine ⟨(report_invariants st0 wh0 orcValid roErr wsQuery "qq" gOrcValid rxNone
    [("value", .num 7)] "indicator" "a" "q").2.1 (by decide) (by decide), ?_⟩
  exact (report_invariants st0 wh0 orcValid roErr wsQuery "qq" gOrcValid rxNone
    [("value", .num 7)] "indicator" "a" "q").2.2.2 (by decide) (by decide)

/-- Claim C10: whenever either validation loop returns `success = false` —
iteration exhaustion or the early no-progress break alike — the report's
`iterations` field is the configured `maxIterations` (3), not the number of
iterations actually performed. -/
theorem failed_report_iterations (st : Settings) (wh : Warehouse) (orc : SemOracle)
    (ro : RepairOracle) (q question : String) (gorc : GraphSemOracle) (rx : Reextract)
    (cdata : ChartData) (ctype ans oq : String) :
    ((validateSqlIteratively st wh orc ro q question).success = false →
      (validateSqlIteratively st wh orc ro q question).iterations = maxIterations) ∧
    ((validateGraphDataIteratively gorc rx cdata ctype ans oq).success = false →
      (validateGraphDataIteratively gorc rx cdata ctype ans oq).iterations = maxIterations) := by
  constructor
  · exact sqlLoopGo_fail_iterations st wh orc ro question q maxIterations 1 (pyStrip q) []
  · exact graphLoopGo_fail_iterations gorc rx ctype ans oq cdata maxIterations 1 cdata []

/-- Claim C10 witness: `failed_report_iterations` at a run that actually
performed a single iteration before breaking (`\"SELECT 1\"` with a raising
repair oracle: one recorded finding) yet reports `iterations = 3`, and at a
chart run that broke at its second iteration. -/
theorem failed_report_iterations_witness :
    (validateSqlIteratively st0 wh0 orcValid roErr "SELECT 1" "qq").validation_results.length
      = 1 ∧
    (validateSqlIteratively st0 wh0 orcValid roErr "SELECT 1" "qq").iterations = 3 ∧
    (validateGraphDataIteratively gOrcInvalid rxNone payload75 "bar" "ans" "qq").iterations
      = 3 := by
  refine ⟨rfl, ?_, ?_⟩
  · exact (failed_report_iterations st0 wh0 orcValid roErr "SELECT 1" "qq" gOrcInvalid rxNone
      payload75 "bar" "ans" "qq").1 rfl
  · exact (failed_report_iterations st0 wh0 orcValid roErr "SELECT 1" "qq" gOrcInvalid rxNone
      payload75 "bar" "ans" "qq").2 (by set_option maxRecDepth 4000 in decide)

/-- Claim C7: if the oracle call of the semantic check raises, the check's
finding is `isValid = true` with `confidence = 0.5` in both validators, and
the iteration proceeds exactly as if the check had passed: its result is
the fail-fast outcome of the remaining checks alone (for SQL: syntax,
dialect, execution, performance; for charts: structure, types, quality,
chart-specific), never a semantic failure. -/
theorem semantic_fail_open (st : Settings) (wh : Warehouse) (orc : SemOracle)
    (q question : String) (iteration : Nat) (gorc : GraphSemOracle) (cdata : ChartData)
    (ctype ans oq : String)
    (h1 : orc q question = .error ()) (h2 : gorc cdata ctype ans oq = .error ()) :
    validateSemantics orc q question =
      { is_valid := true, confidence_score := 1/2, validation_type := "semantic" } ∧
    validateDataSemantics gorc cdata ctype ans oq =
      { is_valid := true, confidence_score := 1/2, validation_type := "semantic" } ∧
    validateSingleIteration st wh orc q question iteration =
      firstFailing (completeIterationResult iteration)
        [validateSyntaxCheck st q, validateBigQuerySpecifics st q, validateExecution st wh q,
         validatePerformance q] ∧
    validateGraphSingleIteration gorc cdata ctype ans oq iteration =
      firstFailingGraph (completeGraphIterationResult cdata ctype iteration)
        [validateDataStructure cdata ctype, validateDataTypes cdata ctype,
         validateDataQuality cdata ctype, validateChartSpecific cdata ctype] := by
  have hsem : validateSemantics orc q question =
      { is_valid := true, confidence_score := 1/2, validation_type := "semantic" } := by
    unfold validateSemantics
    rw [h1]
  have hgsem : validateDataSemantics gorc cdata ctype ans oq =
      { is_valid := true, confidence_score := 1/2, validation_type := "semantic" } := by
    unfold validateDataSemantics
    rw [h2]
  refine ⟨hsem, hgsem, ?_, ?_⟩
  · simp only [validateSingleIteration, firstFailing, hsem]
    cases a : (validateSyntaxCheck st q).is_valid <;>
      cases b : (validateBigQuerySpecifics st q).is_valid <;>
        cases c : (validateExecution st wh q).is_valid <;>
          cases d : (validatePerformance q).is_valid <;>
            simp [a, b, c, d]
  · simp only [validateGraphSingleIteration, firstFailingGraph, hgsem]
    cases a : (validateDataStructure cdata ctype).is_valid <;>
      cases b : (validateDataTypes cdata ctype).is_valid <;>
        cases c : (validateDataQuality cdata ctype).is_valid <;>
          cases d : (validateChartSpecific cdata ctype).is_valid <;>
            simp [a, b, c, d]

/-- Claim C7 witness: `semantic_fail_open` at raising oracles, a FROM-less
query and a minimal indicator payload. -/
theorem semantic_fail_open_witness :
    validateSemantics orcErr "SELECT 1" "qq" =
      { is_valid := true, confidence_score := 1/2, validation_type := "semantic" } ∧
    validateDataSemantics gOrcErr [("value", .num 7)] "indicator" "a" "q" =
      { is_valid := true, confidence_score := 1/2, validation_type := "semantic" } ∧
    validateSingleIteration st0 wh0 orcErr "SELECT 1" "qq" 1 =
      firstFailing (completeIterationResult 1)
        [validateSyntaxCheck st0 "SELECT 1", validateBigQuerySpecifics st0 "SELECT 1",
         validateExecution st0 wh0 "SELECT 1", validatePerformance "SELECT 1"] := by
  have h := semantic_fail_open st0 wh0 orcErr "SELECT 1" "qq" 1 gOrcErr
    [("value", .num 7)] "indicator" "a" "q" rfl rfl
  exact ⟨h.1, h.2.1, h.2.2.1⟩

/-- Claim C8, counterexample: the re-validation of the truncated bar payload
is *not* oracle-free.  The identical 75-point payload is truncated and then
re-validated: with an oracle answering `VALID` the loop succeeds, with one
answering `INVALID: no` it fails — the iteration that re-validates the
truncated payload consults the oracle through its semantic check. -/
theorem bar_truncation_oracle_cex :
    (validateGraphDataIteratively gOrcValid rxNone payload75 "bar" "ans" "qq").success = true ∧
    (validateGraphDataIteratively gOrcInvalid rxNone payload75 "bar" "ans" "qq").success
      = false := by
  constructor
  · set_option maxRecDepth 4000 in decide
  · set_option maxRecDepth 4000 in decide

/-- Claim C8 (amended): a bar payload with `labels`/`values` of length 75
(maximum 50, no other rule violated) is truncated by the structure check's
`suggestedFix` to exactly the first 50 entries of each array — pairwise
aligned, order preserved — and the truncated payload is re-validated as
valid at iteration 2 without consuming the repair/oracle regeneration path;
the re-validation does, however, make one oracle call for its semantic
check (`bar_truncation_oracle_cex`). -/
theorem bar_truncation_repair :
    (validateGraphDataIteratively gOrcValid rxNone payload75 "bar" "ans" "qq").success = true ∧
    (validateGraphDataIteratively gOrcValid rxNone payload75 "bar" "ans" "qq").iterations = 2 ∧
    (validateGraphDataIteratively gOrcValid rxNone payload75 "bar" "ans" "qq").final_data =
      [("labels", .list (labels75.take 50)), ("values", .list (values75.take 50))] ∧
    (validateGraphDataIteratively gOrcValid rxNone payload75 "bar" "ans" "qq").data_points
      = 50 := by
  refine ⟨by set_option maxRecDepth 4000 in decide, by set_option maxRecDepth 4000 in decide,
    by set_option maxRecDepth 4000 in decide, by set_option maxRecDepth 4000 in decide⟩

/-- Claim C9, counterexample: a query with no SELECT clause does carry a
`suggestedFix` — the constant default query — contrary to the claimed
no-auto-fix behaviour. -/
theorem missing_select_fix_cex :
    (validateSyntaxCheck st0 "FOO").is_valid = false ∧
    (validateSyntaxCheck st0 "FOO").suggested_fix
      = some "SELECT * FROM proj.ds.cost_analysis LIMIT 10" := by
  exact ⟨rfl, rfl⟩

/-- Claim C9 (amended): for every nonempty SQL artifact, a missing SELECT
clause makes the structure check fail *with* a `suggestedFix` (the constant
default query over the configured dataset, independent of the input), while
a query containing SELECT but no FROM clause fails with no `suggestedFix`
and must go through the repair path. -/
theorem structure_check_missing_clause (st : Settings) (q : String) (hne : q ≠ "") :
    (wordSearch "SELECT" (upperStr q) = false →
      validateSyntaxCheck st q =
        { is_valid := false, error_message := some "SQL query must contain SELECT statement",
          suggested_fix := some (selectDefaultFix st), confidence_score := 0,
          validation_type := "syntax" }) ∧
    (wordSearch "SELECT" (upperStr q) = true → wordSearch "FROM" (upperStr q) = false →
      validateSyntaxCheck st q =
        { is_valid := false, error_message := some "SQL query must contain FROM clause",
          suggested_fix := none, confidence_score := 0, validation_type := "syntax" }) := by
  constructor
  · intro hsel
    unfold validateSyntaxCheck
    simp [hne, hsel]
  · intro hsel hfrom
    unfold validateSyntaxCheck
    simp [hne, hsel, hfrom]

/-- Claim C9 witness: `structure_check_missing_clause` at the SELECT-less
query `FOO` and the FROM-less query `SELECT 1`. -/
theorem structure_check_missing_clause_witness :
    validateSyntaxCheck st0 "FOO" =
      { is_valid := false, error_message := some "SQL query must contain SELECT statement",
        suggested_fix := some (selectDefaultFix st0), confidence_score := 0,
        validation_type := "syntax" } ∧
    validateSyntaxCheck st0 "SELECT 1" =
      { is_valid := false, error_message := some "SQL query must contain FROM clause",
        suggested_fix := none, confidence_score := 0, validation_type := "syntax" } := by
  exact ⟨(structure_check_missing_clause st0 "FOO" (by decide)).1 (by decide),
    (structure_check_missing_clause st0 "SELECT 1" (by decide)).2 (by decide) (by decide)⟩

end AgentSample
